import Mathlib

/-!
# The rkt version gate of the kubelet (`pkg/kubelet/rkt/version.go`)

`checkVersion` asks systemd and the rkt API service for their versions and
compares them with five thresholds. The file embeds `rktVersion.Compare`,
`compareVersion` and `Runtime.checkVersion` from `version.go`.

`version.go` imports code that is not in the source tree: the package
`github.com/coreos/go-semver/semver`, the type `systemdVersion` with its
methods, and the message type `rktapi.Info`. The functions of `version.go` are
written over a record `Lib` holding those parts, so that what is proved of
`checkVersion` holds whatever they do; `goLib` is the instance described by the
specification and, where the specification is silent on the order of
pre-release identifiers, by the behaviour of the library.
-/

namespace rkt

/-- A Go `error` value, as far as a caller can tell two of them apart: the name
of the dynamic type and the message. -/
structure GoError where
  dynType : String
  msg : String
  deriving DecidableEq, Repr

/-- The value `fmt.Errorf` returns for an already formatted message. -/
def Errorf (msg : String) : GoError := ⟨"*errors.errorString", msg⟩

/-- The parts `version.go` uses and does not define. `Version`, `NewVersion`,
`LessThan` and `VersionString` are `semver.Version`, `semver.NewVersion`,
`Version.LessThan` and `Version.String`; `systemdVersion` is the type of that
name with its methods `Compare` and `String`, the latter being what `%v` prints. -/
structure Lib where
  Version : Type
  NewVersion : String → Except GoError Version
  LessThan : Version → Version → Bool
  VersionString : Version → String
  systemdVersion : Type
  systemdCompare : systemdVersion → String → Except GoError Int
  systemdString : systemdVersion → String

/-- The three fields of `rktapi.Info` that `checkVersion` reads. -/
structure Info where
  RktVersion : String
  AppcVersion : String
  ApiVersion : String
  deriving DecidableEq, Repr

/-- The type `rktVersion` embeds a `*semver.Version`; `none` is the nil pointer. -/
structure rktVersion (L : Lib) where
  Version : Option L.Version

/-- The method `rktVersion.Compare` for a receiver whose embedded pointer is the
version `r`. (On a nil pointer the method would dereference it once `other` has
parsed; `compareVersion`, its only caller in `version.go`, passes a version that
`NewVersion` has just returned.) -/
def rktVersion.Compare (L : Lib) (r : L.Version) (other : String) : Except GoError Int :=
  match L.NewVersion other with
  | .error err => .error err
  | .ok v =>
    if L.LessThan r v then .ok (-1)
    else if L.LessThan v r then .ok 1
    else .ok 0

/-- The method `String` that `rktVersion` takes from the embedded version; a nil
pointer has none to call. -/
def rktVersion.String {L : Lib} (r : rktVersion L) : Option String :=
  match r.Version with
  | some v => some (L.VersionString v)
  | none => none

/-- The function `compareVersion`: -1, 1 or 0 as `v1` is less than, greater than
or equal to `v2`; the error of the first string that does not parse. -/
def compareVersion (L : Lib) (v1 v2 : String) : Except GoError Int :=
  match L.NewVersion v1 with
  | .error err => .error err
  | .ok semv => rktVersion.Compare L semv v2

/-- The fields of `Runtime` that `checkVersion` touches. `systemd` and `apisvc`
stand for the two collaborators, each given by the answer it makes to the one
call `checkVersion` can place on it (`Version()` and `GetInfo()`). -/
structure Runtime (L : Lib) where
  systemd : Except GoError L.systemdVersion
  apisvc : Except GoError Info
  binVersion : rktVersion L
  appcVersion : rktVersion L
  apiVersion : rktVersion L
  systemdVersion : L.systemdVersion

/-- What a run of `checkVersion` does besides returning and writing the four
fields: the calls it places and the warning it logs (with the two arguments of
the `glog.Warningf` call). -/
inductive Event where
  | callSystemdVersion
  | callGetInfo
  | warnNotRecommended (current recommended : String)
  deriving DecidableEq, Repr

/-- The result of a run: the returned error (`none` is nil), the `Runtime`
afterwards, and the events in the order they happened. -/
structure Outcome (L : Lib) where
  err : Option GoError
  runtime : Runtime L
  events : List Event

/-- The message of the systemd too-old error. -/
def systemdTooOld (actual required : String) : GoError :=
  Errorf ("rkt: systemd version(" ++ actual ++ ") is too old, requires at least " ++ required)

/-- The message of the binary too-old error. -/
def binaryTooOld (actual required : String) : GoError :=
  Errorf ("rkt: binary version is too old(" ++ actual ++ "), requires at least " ++ required)

/-- The message of the Appc too-old error. -/
def appcTooOld (actual required : String) : GoError :=
  Errorf ("rkt: Appc version is too old(" ++ actual ++ "), requires at least " ++ required)

/-- The message of the API too-old error. -/
def apiTooOld (actual required : String) : GoError :=
  Errorf ("rkt: API version is too old(" ++ actual ++ "), requires at least " ++ required)

/-- The three assignments and the fourth at the end of `checkVersion`: each
`semver.NewVersion` result is stored with its error dropped, so a string that
does not parse would store a nil pointer. -/
def commit {L : Lib} (r : Runtime L) (info : Info) (systemdVersion : L.systemdVersion) :
    Runtime L :=
  { r with
    appcVersion := ⟨(L.NewVersion info.AppcVersion).toOption⟩
    binVersion := ⟨(L.NewVersion info.RktVersion).toOption⟩
    apiVersion := ⟨(L.NewVersion info.ApiVersion).toOption⟩
    systemdVersion := systemdVersion }

/-- The events of the comparison with the recommended version: a warning when
the result is not 0. -/
def recommendEvents (info : Info) (recommendRktBinVersion : String) (result : Int) :
    List Event :=
  if result ≠ 0 then [.warnNotRecommended info.RktVersion recommendRktBinVersion] else []

/-- The method `Runtime.checkVersion`. -/
def checkVersion (L : Lib) (r : Runtime L)
    (minimumRktBinVersion recommendRktBinVersion minimumAppcVersion
      minimumRktApiVersion minimumSystemdVersion : String) : Outcome L :=
  -- Check systemd version.
  match r.systemd with
  | .error err => ⟨some err, r, [.callSystemdVersion]⟩
  | .ok systemdVersion =>
  match L.systemdCompare systemdVersion minimumSystemdVersion with
  | .error err => ⟨some err, r, [.callSystemdVersion]⟩
  | .ok result =>
  if result < 0 then
    ⟨some (systemdTooOld (L.systemdString systemdVersion) minimumSystemdVersion), r,
      [.callSystemdVersion]⟩
  else
  match r.apisvc with
  | .error err => ⟨some err, r, [.callSystemdVersion, .callGetInfo]⟩
  | .ok info =>
  -- Check rkt binary version.
  match compareVersion L info.RktVersion minimumRktBinVersion with
  | .error err => ⟨some err, r, [.callSystemdVersion, .callGetInfo]⟩
  | .ok result =>
  if result < 0 then
    ⟨some (binaryTooOld info.RktVersion minimumRktBinVersion), r,
      [.callSystemdVersion, .callGetInfo]⟩
  else
  match compareVersion L info.RktVersion recommendRktBinVersion with
  | .error err => ⟨some err, r, [.callSystemdVersion, .callGetInfo]⟩
  | .ok result =>
  let events := [.callSystemdVersion, .callGetInfo] ++
    recommendEvents info recommendRktBinVersion result
  -- Check Appc version.
  match compareVersion L info.AppcVersion minimumAppcVersion with
  | .error err => ⟨some err, r, events⟩
  | .ok result =>
  if result < 0 then
    ⟨some (appcTooOld info.AppcVersion minimumAppcVersion), r, events⟩
  else
  -- Check rkt API version.
  match compareVersion L info.ApiVersion minimumRktApiVersion with
  | .error err => ⟨some err, r, events⟩
  | .ok result =>
  if result < 0 then
    ⟨some (apiTooOld info.ApiVersion minimumRktApiVersion), r, events⟩
  else
    ⟨none, commit r info systemdVersion, events⟩

end rkt

/-! ## The library as the specification describes it -/

namespace semver

open rkt (GoError)

/-- Modelled from the spec: the type `semver.Version` of go-semver, which is not
in the source tree. Section 3 gives a version a major, minor and patch number
(non-negative integers), an optional pre-release identifier and an optional
build-metadata string; an absent part is the empty string here. -/
structure Version where
  Major : Nat
  Minor : Nat
  Patch : Nat
  PreRelease : String
  Metadata : String
  deriving DecidableEq, Repr

/-- Modelled from the spec: how `NewVersion` takes a string apart at the marks of
`MAJOR.MINOR.PATCH[-PRERELEASE][+BUILD]`: the text before the first `sep` and,
when there is a `sep`, the text after it. -/
def cut (sep : Char) : List Char → List Char × Option (List Char)
  | [] => ([], none)
  | c :: cs =>
    if c = sep then ([], some cs) else (c :: (cut sep cs).1, (cut sep cs).2)

/-- Modelled from the spec: the value of a decimal digit of a numeric field, the
`d` below ten that is written `c`. -/
def digitValue (c : Char) : Option Nat :=
  [0, 1, 2, 3, 4, 5, 6, 7, 8, 9].find? (fun d => Nat.digitChar d = c)

/-- Modelled from the spec: reads the decimal digits of a numeric field onto the
number read so far. -/
def parseDigits : List Char → Nat → Option Nat
  | [], acc => some acc
  | c :: cs, acc =>
    match digitValue c with
    | some d => parseDigits cs (10 * acc + d)
    | none => none

/-- Modelled from the spec: a numeric field is a non-negative integer, read
here as a non-empty run of decimal digits. -/
def parseNumber (cs : List Char) : Option Nat :=
  match cs with
  | [] => none
  | _ :: _ => parseDigits cs 0

/-- Modelled from the spec: the ParseError of section 7 for a string that is not
a version, carrying the string. -/
def parseError (text : String) : GoError := ⟨"ParseError", text⟩

/-- Modelled from the spec: `semver.NewVersion` of go-semver, which is not in the
source tree. Section 3: construction fails with a ParseError when the string does
not follow `MAJOR.MINOR.PATCH[-PRERELEASE][+BUILD]`. The first two dots end the
major and the minor number; in what follows, the build metadata is the text after
the first `+` and the pre-release the text after the first `-` before it. -/
def NewVersion (version : String) : Except GoError Version :=
  match cut '.' version.data with
  | (_, none) => .error (parseError version)
  | (major, some rest) =>
    match cut '.' rest with
    | (_, none) => .error (parseError version)
    | (minor, some third) =>
      let withoutBuild := cut '+' third
      let patchPre := cut '-' withoutBuild.1
      match parseNumber major, parseNumber minor, parseNumber patchPre.1 with
      | some a, some b, some c =>
        .ok ⟨a, b, c, String.mk (patchPre.2.getD []), String.mk (withoutBuild.2.getD [])⟩
      | _, _, _ => .error (parseError version)

/-- Modelled from the spec: `Version.String` of go-semver, the text
`MAJOR.MINOR.PATCH[-PRERELEASE][+BUILD]` of section 3 with the numbers in
decimal and an absent part left out. -/
def Version.String (v : Version) : String :=
  Nat.repr v.Major ++ "." ++ Nat.repr v.Minor ++ "." ++ Nat.repr v.Patch
    ++ (if v.PreRelease = "" then "" else "-" ++ v.PreRelease)
    ++ (if v.Metadata = "" then "" else "+" ++ v.Metadata)

/-- The optional text after a cut, behind its separator again. -/
def behind (sep : Char) : Option (List Char) → List Char
  | some r => sep :: r
  | none => []

/-- A numeric field written without a leading zero: one character, or a first
character other than `0`. -/
def canonicalNumber (cs : List Char) : Bool :=
  decide (cs ≠ [] ∧ (cs.length = 1 ∨ cs.head? ≠ some '0'))

/-- A version string in the form `Version.String` prints: the three numbers
without leading zeros, and a `-` or a `+` only before a part that is not empty. -/
def canonical (version : String) : Bool :=
  match cut '.' version.data with
  | (_, none) => false
  | (major, some rest) =>
    match cut '.' rest with
    | (_, none) => false
    | (minor, some third) =>
      let withoutBuild := cut '+' third
      let patchPre := cut '-' withoutBuild.1
      canonicalNumber major && canonicalNumber minor && canonicalNumber patchPre.1
        && decide (patchPre.2 ≠ some []) && decide (withoutBuild.2 ≠ some [])

/-- Modelled from the spec: numeric fields are compared numerically (section
4.1); the three-way comparison of two numbers. -/
def compareNat (a b : Nat) : Int :=
  if a < b then -1 else if b < a then 1 else 0

/-- Modelled from the spec: the comparison of two fields as texts, which the spec
leaves to the library: character by character, a proper initial part of a text
coming before it. -/
def compareText : List Char → List Char → Int
  | [], [] => 0
  | [], _ :: _ => -1
  | _ :: _, [] => 1
  | a :: as, b :: bs =>
    if a.toNat < b.toNat then -1
    else if b.toNat < a.toNat then 1
    else compareText as bs

/-- Modelled from the spec: the fields of a pre-release identifier (section 3),
the texts between its dots. -/
def fields : List Char → List (List Char)
  | [] => [[]]
  | c :: cs =>
    if c = '.' then [] :: fields cs
    else
      match fields cs with
      | [] => [[c]]
      | f :: fs => (c :: f) :: fs

/-- Modelled from the spec: when a field of a pre-release identifier is numeric
(section 3). The spec does not say how a field is read; this is the reading of
`strconv.Atoi`, which the library applies to each field: an optional sign, then
decimal digits, and a value that fits a 64-bit integer. -/
def atoi : List Char → Option Int
  | [] => none
  | c :: cs =>
    if c = '-' then
      match parseNumber cs with
      | some n => if n ≤ 9223372036854775808 then some (-(n : Int)) else none
      | none => none
    else if c = '+' then
      match parseNumber cs with
      | some n => if n < 9223372036854775808 then some (n : Int) else none
      | none => none
    else
      match parseNumber (c :: cs) with
      | some n => if n < 9223372036854775808 then some (n : Int) else none
      | none => none

/-- Modelled from the spec: numeric fields are compared numerically (section
4.1); the three-way comparison of two integers. -/
def compareInt (a b : Int) : Int :=
  if b < a then 1 else if a < b then -1 else 0

/-- Modelled from the spec: the comparison of two fields of a pre-release
identifier. Section 4.1 has numeric fields compared as numbers; the spec says no
more, and the rest is as the library does it: two numeric fields of different
value compare as numbers, and every other pair, also a numeric field with one
that is not, compares as texts. -/
def compareField (a b : List Char) : Int :=
  match atoi a, atoi b with
  | some x, some y => if compareInt x y ≠ 0 then compareInt x y else compareText a b
  | _, _ => compareText a b

/-- Modelled from the spec: the comparison of two sequences of fields. The spec
does not give it; this is what the library does: the first fields that differ
decide, a first sequence that ends before they do gives 0, and a second
sequence that ends before the first gives 1. -/
def recursivePreReleaseCompare : List (List Char) → List (List Char) → Int
  | [], _ => 0
  | _ :: _, [] => 1
  | a :: as, b :: bs =>
    if compareField a b ≠ 0 then compareField a b
    else recursivePreReleaseCompare as bs

/-- Modelled from the spec: the order of the pre-release parts of two versions
with the same numbers. Section 4.1: a version with a pre-release is lower than
the same numbers without one. Section 3 makes the identifier a sequence of
numeric and alphanumeric fields; the order of two identifiers, which the spec
does not give, is taken field by field as the library does. -/
def preReleaseCompare (a b : Version) : Int :=
  if a.PreRelease = "" ∧ b.PreRelease ≠ "" then 1
  else if b.PreRelease = "" ∧ a.PreRelease ≠ "" then -1
  else recursivePreReleaseCompare (fields a.PreRelease.data) (fields b.PreRelease.data)

/-- Modelled from the spec: the order of section 4.1, numbers compared as
numbers, major first, then minor, then patch. -/
def recursiveCompare : List Nat → List Nat → Int
  | a :: as, b :: bs => if compareNat a b ≠ 0 then compareNat a b else recursiveCompare as bs
  | _, _ => 0

/-- Modelled from the spec: the numbers of a version in the order section 4.1
compares them. -/
def Version.Slice (v : Version) : List Nat := [v.Major, v.Minor, v.Patch]

/-- Modelled from the spec: three-way comparison of two versions (section 4.1):
the numbers decide, then the pre-release parts; build metadata is not looked at. -/
def Version.Compare (a b : Version) : Int :=
  if recursiveCompare a.Slice b.Slice ≠ 0 then recursiveCompare a.Slice b.Slice
  else preReleaseCompare a b

/-- Modelled from the spec: `Version.LessThan` of go-semver, which is not in the
source tree: the order of section 4.1. -/
def Version.LessThan (a b : Version) : Bool :=
  decide (a.Compare b = -1)

/-- The result that `rktVersion.Compare` builds from the two `LessThan` tests, for
two versions of the library. -/
def sign (a b : Version) : Int :=
  if a.Compare b = -1 then -1 else if b.Compare a = -1 then 1 else 0

/-- The same result for the pre-release parts alone. -/
def preSign (a b : Version) : Int :=
  if preReleaseCompare a b = -1 then -1 else if preReleaseCompare b a = -1 then 1 else 0

/-- Three fields are of one kind: all numeric or none of them. -/
def sameKind (a b c : List Char) : Bool :=
  ((atoi a).isSome == (atoi b).isSome) && ((atoi b).isSome == (atoi c).isSome)

/-- Three sequences of fields are uniform: they have the same number of fields
and, at each position, the three fields are of one kind. -/
def uniform : List (List Char) → List (List Char) → List (List Char) → Bool
  | [], [], [] => true
  | a :: as, b :: bs, c :: cs => sameKind a b c && uniform as bs cs
  | _, _, _ => false

/-- The three results, of comparing a first thing with a second, the second with
a third and the first with the third, agree with a transitive order. -/
def Transitive3 (ab bc ac : Int) : Prop :=
  (ab ≤ 0 → bc ≤ 0 → ac ≤ 0) ∧ (ab < 0 → bc ≤ 0 → ac < 0)
    ∧ (ab ≤ 0 → bc < 0 → ac < 0) ∧ (ab = 0 → bc = 0 → ac = 0)

end semver

namespace rkt

/-- Modelled from the spec: the method `systemdVersion.Compare`, declared outside
the source tree. Section 6: plain integer strings such as "100" are accepted and
compared as versions; a service-manager version is a number here and the
threshold is read as a run of decimal digits. -/
def systemdVersionCompare (s : Nat) (other : String) : Except GoError Int :=
  match semver.parseNumber other.data with
  | none => .error (semver.parseError other)
  | some v => .ok (semver.compareNat s v)

/-- The library of the specification: versions as in its sections 3 and 4.1, the
service-manager version a plain integer (section 6). -/
@[reducible] def goLib : Lib where
  Version := semver.Version
  NewVersion := semver.NewVersion
  LessThan := semver.Version.LessThan
  VersionString := semver.Version.String
  systemdVersion := Nat
  systemdCompare := systemdVersionCompare
  systemdString := Nat.repr

/-- The collaborators of `TestCheckVersion` in `rkt_test.go`: systemd answers
100, the API service the three strings of the test; no version is committed yet. -/
def testRuntime : Runtime goLib :=
  { systemd := .ok 100
    apisvc := .ok ⟨"1.2.3+git", "1.2.4+git", "1.2.6-alpha"⟩
    binVersion := ⟨none⟩
    appcVersion := ⟨none⟩
    apiVersion := ⟨none⟩
    systemdVersion := 0 }

/-- The test's collaborators, except that the API service reports its binary
version with a leading zero. -/
def leadingZeroRuntime : Runtime goLib :=
  { testRuntime with apisvc := .ok ⟨"01.2.3", "1.2.4+git", "1.2.6-alpha"⟩ }

/-- The test's collaborators with four versions left by an earlier run against
older services. -/
def staleRuntime : Runtime goLib :=
  { testRuntime with
    binVersion := ⟨some ⟨0, 9, 0, "", ""⟩⟩
    appcVersion := ⟨some ⟨0, 7, 1, "", ""⟩⟩
    apiVersion := ⟨some ⟨1, 0, 0, "alpha", ""⟩⟩
    systemdVersion := 42 }

/-- The `Runtime` after the first, successful case of `TestCheckVersion`: the
four versions are committed. -/
def committedRuntime : Runtime goLib :=
  (checkVersion goLib testRuntime "1.2.3" "1.2.3" "1.2.4" "1.2.5" "99").runtime

end rkt

deriving instance DecidableEq for Except

/-! ## What `compareVersion` returns, for any library -/

namespace rkt

/-- With both strings parsing, `compareVersion` returns the sign that the two
`LessThan` tests give. -/
theorem compareVersion_ok (L : Lib) (v1 v2 : String) (a b : L.Version)
    (h1 : L.NewVersion v1 = .ok a) (h2 : L.NewVersion v2 = .ok b) :
    compareVersion L v1 v2 =
      .ok (if L.LessThan a b then -1 else if L.LessThan b a then 1 else 0) := by
  simp only [compareVersion, rktVersion.Compare, h1, h2]
  split <;> [rfl; (split <;> rfl)]

/-- A result of `compareVersion` is negative exactly when the first version is
less than the second. -/
theorem compareVersion_neg_iff (L : Lib) (v1 v2 : String) (a b : L.Version) (c : Int)
    (h1 : L.NewVersion v1 = .ok a) (h2 : L.NewVersion v2 = .ok b)
    (hc : compareVersion L v1 v2 = .ok c) : c < 0 ↔ L.LessThan a b = true := by
  rw [compareVersion_ok L v1 v2 a b h1 h2] at hc
  injection hc with hc
  subst hc
  by_cases hab : L.LessThan a b = true
  · simp [hab]
  · by_cases hba : L.LessThan b a = true <;> simp [hab, hba]

/-- An error of `compareVersion` is the error `NewVersion` gave for one of the two
strings. -/
theorem compareVersion_error (L : Lib) (v1 v2 : String) (e : GoError)
    (h : compareVersion L v1 v2 = .error e) :
    L.NewVersion v1 = .error e ∨ L.NewVersion v2 = .error e := by
  cases h1 : L.NewVersion v1 with
  | error e1 =>
    simp only [compareVersion, h1] at h
    injection h with h; subst h; left; rfl
  | ok a =>
    cases h2 : L.NewVersion v2 with
    | error e2 =>
      simp only [compareVersion, rktVersion.Compare, h1, h2] at h
      injection h with h; subst h; right; rfl
    | ok b =>
      rw [compareVersion_ok L v1 v2 a b h1 h2] at h
      cases h

/-! ## The claims on `checkVersion` -/

/-- C1: when both collaborators answer and every reported and threshold string
parses, `checkVersion` returns nil exactly when the systemd comparison is not
negative and none of the reported rkt, Appc and API versions is less than its
minimum. -/
theorem checkVersion_nil_iff (L : Lib) (r : Runtime L)
    (minimumRktBinVersion recommendRktBinVersion minimumAppcVersion
      minimumRktApiVersion minimumSystemdVersion : String)
    (sv : L.systemdVersion) (info : Info) (c : Int)
    (vb va vp mb mr ma mp : L.Version)
    (hs : r.systemd = .ok sv) (hi : r.apisvc = .ok info)
    (hc : L.systemdCompare sv minimumSystemdVersion = .ok c)
    (hvb : L.NewVersion info.RktVersion = .ok vb)
    (hva : L.NewVersion info.AppcVersion = .ok va)
    (hvp : L.NewVersion info.ApiVersion = .ok vp)
    (hmb : L.NewVersion minimumRktBinVersion = .ok mb)
    (hmr : L.NewVersion recommendRktBinVersion = .ok mr)
    (hma : L.NewVersion minimumAppcVersion = .ok ma)
    (hmp : L.NewVersion minimumRktApiVersion = .ok mp) :
    (checkVersion L r minimumRktBinVersion recommendRktBinVersion minimumAppcVersion
        minimumRktApiVersion minimumSystemdVersion).err = none ↔
      (0 ≤ c ∧ L.LessThan vb mb = false ∧ L.LessThan va ma = false
        ∧ L.LessThan vp mp = false) := by
  have h1 := compareVersion_ok L _ _ vb mb hvb hmb
  have h2 := compareVersion_ok L _ _ vb mr hvb hmr
  have h3 := compareVersion_ok L _ _ va ma hva hma
  have h4 := compareVersion_ok L _ _ vp mp hvp hmp
  simp only [checkVersion, hs, hc, hi, h1, h2, h3, h4]
  by_cases hc0 : c < 0
  · simp [hc0]
  · have hc1 : 0 ≤ c := by omega
    simp only [hc0, if_false, hc1, true_and]
    cases hb : L.LessThan vb mb <;> cases ha : L.LessThan va ma <;>
      cases hp : L.LessThan vp mp <;>
      cases hb2 : L.LessThan mb vb <;> cases ha2 : L.LessThan ma va <;>
      cases hp2 : L.LessThan mp vp <;> simp

/-- C1, at the first case of `TestCheckVersion`: every string parses, and both
sides of the equivalence hold. -/
theorem checkVersion_nil_iff_witness :
    (checkVersion goLib testRuntime "1.2.3" "1.2.3" "1.2.4" "1.2.5" "99").err = none ↔
      (0 ≤ (1 : Int)
        ∧ goLib.LessThan ⟨1, 2, 3, "", "git"⟩ ⟨1, 2, 3, "", ""⟩ = false
        ∧ goLib.LessThan ⟨1, 2, 4, "", "git"⟩ ⟨1, 2, 4, "", ""⟩ = false
        ∧ goLib.LessThan ⟨1, 2, 6, "alpha", ""⟩ ⟨1, 2, 5, "", ""⟩ = false) :=
  checkVersion_nil_iff goLib testRuntime "1.2.3" "1.2.3" "1.2.4" "1.2.5" "99"
    100 ⟨"1.2.3+git", "1.2.4+git", "1.2.6-alpha"⟩ 1
    ⟨1, 2, 3, "", "git"⟩ ⟨1, 2, 4, "", "git"⟩ ⟨1, 2, 6, "alpha", ""⟩
    ⟨1, 2, 3, "", ""⟩ ⟨1, 2, 3, "", ""⟩ ⟨1, 2, 4, "", ""⟩ ⟨1, 2, 5, "", ""⟩
    rfl rfl (by decide) (by decide) (by decide) (by decide) (by decide) (by decide)
    (by decide) (by decide)

/-- Whenever `checkVersion` returns an error, the `Runtime` is the one it was
called on. -/
theorem checkVersion_error_runtime (L : Lib) (r : Runtime L) (a b c d s : String)
    (h : (checkVersion L r a b c d s).err ≠ none) :
    (checkVersion L r a b c d s).runtime = r := by
  unfold checkVersion at h ⊢
  repeat' split
  all_goals first | rfl | (exfalso; simp_all)

/-- C2: if `checkVersion` returns an error, of whatever kind, the four fields
`binVersion`, `appcVersion`, `apiVersion` and `systemdVersion` hold what they
held before the call. -/
theorem checkVersion_error_keeps_fields (L : Lib) (r : Runtime L)
    (minimumRktBinVersion recommendRktBinVersion minimumAppcVersion
      minimumRktApiVersion minimumSystemdVersion : String)
    (h : (checkVersion L r minimumRktBinVersion recommendRktBinVersion minimumAppcVersion
        minimumRktApiVersion minimumSystemdVersion).err ≠ none) :
    (checkVersion L r minimumRktBinVersion recommendRktBinVersion minimumAppcVersion
        minimumRktApiVersion minimumSystemdVersion).runtime.binVersion = r.binVersion ∧
    (checkVersion L r minimumRktBinVersion recommendRktBinVersion minimumAppcVersion
        minimumRktApiVersion minimumSystemdVersion).runtime.appcVersion = r.appcVersion ∧
    (checkVersion L r minimumRktBinVersion recommendRktBinVersion minimumAppcVersion
        minimumRktApiVersion minimumSystemdVersion).runtime.apiVersion = r.apiVersion ∧
    (checkVersion L r minimumRktBinVersion recommendRktBinVersion minimumAppcVersion
        minimumRktApiVersion minimumSystemdVersion).runtime.systemdVersion
      = r.systemdVersion := by
  rw [checkVersion_error_runtime L r _ _ _ _ _ h]
  exact ⟨rfl, rfl, rfl, rfl⟩

/-- C2, at a forced failure after a successful run: the systemd threshold 101
fails on the committed state and the four committed fields stay. -/
theorem checkVersion_error_keeps_fields_witness :
    (checkVersion goLib committedRuntime "1.2.3" "1.2.3" "1.2.4" "1.2.7" "101").err ≠ none
    ∧ committedRuntime.binVersion = ⟨some ⟨1, 2, 3, "", "git"⟩⟩
    ∧ (checkVersion goLib committedRuntime "1.2.3" "1.2.3" "1.2.4" "1.2.7"
        "101").runtime.binVersion = committedRuntime.binVersion
    ∧ (checkVersion goLib committedRuntime "1.2.3" "1.2.3" "1.2.4" "1.2.7"
        "101").runtime.appcVersion = committedRuntime.appcVersion
    ∧ (checkVersion goLib committedRuntime "1.2.3" "1.2.3" "1.2.4" "1.2.7"
        "101").runtime.apiVersion = committedRuntime.apiVersion
    ∧ (checkVersion goLib committedRuntime "1.2.3" "1.2.3" "1.2.4" "1.2.7"
        "101").runtime.systemdVersion = committedRuntime.systemdVersion :=
  ⟨by decide, rfl,
    checkVersion_error_keeps_fields goLib committedRuntime "1.2.3" "1.2.3" "1.2.4" "1.2.7"
      "101" (by decide)⟩

/-- C3: with every string parsing, the error returned is the one of the first
violated minimum in the order systemd, rkt binary, Appc, rkt API, whatever the
later comparisons would give. -/
theorem checkVersion_first_violation (L : Lib) (r : Runtime L)
    (minimumRktBinVersion recommendRktBinVersion minimumAppcVersion
      minimumRktApiVersion minimumSystemdVersion : String)
    (sv : L.systemdVersion) (info : Info) (c : Int)
    (vb va vp mb mr ma mp : L.Version)
    (hs : r.systemd = .ok sv) (hi : r.apisvc = .ok info)
    (hc : L.systemdCompare sv minimumSystemdVersion = .ok c)
    (hvb : L.NewVersion info.RktVersion = .ok vb)
    (hva : L.NewVersion info.AppcVersion = .ok va)
    (hvp : L.NewVersion info.ApiVersion = .ok vp)
    (hmb : L.NewVersion minimumRktBinVersion = .ok mb)
    (hmr : L.NewVersion recommendRktBinVersion = .ok mr)
    (hma : L.NewVersion minimumAppcVersion = .ok ma)
    (hmp : L.NewVersion minimumRktApiVersion = .ok mp) :
    (c < 0 →
      (checkVersion L r minimumRktBinVersion recommendRktBinVersion minimumAppcVersion
        minimumRktApiVersion minimumSystemdVersion).err
        = some (systemdTooOld (L.systemdString sv) minimumSystemdVersion))
    ∧ (0 ≤ c → L.LessThan vb mb = true →
      (checkVersion L r minimumRktBinVersion recommendRktBinVersion minimumAppcVersion
        minimumRktApiVersion minimumSystemdVersion).err
        = some (binaryTooOld info.RktVersion minimumRktBinVersion))
    ∧ (0 ≤ c → L.LessThan vb mb = false → L.LessThan va ma = true →
      (checkVersion L r minimumRktBinVersion recommendRktBinVersion minimumAppcVersion
        minimumRktApiVersion minimumSystemdVersion).err
        = some (appcTooOld info.AppcVersion minimumAppcVersion))
    ∧ (0 ≤ c → L.LessThan vb mb = false → L.LessThan va ma = false →
        L.LessThan vp mp = true →
      (checkVersion L r minimumRktBinVersion recommendRktBinVersion minimumAppcVersion
        minimumRktApiVersion minimumSystemdVersion).err
        = some (apiTooOld info.ApiVersion minimumRktApiVersion)) := by
  have h1 := compareVersion_ok L _ _ vb mb hvb hmb
  have h2 := compareVersion_ok L _ _ vb mr hvb hmr
  have h3 := compareVersion_ok L _ _ va ma hva hma
  have h4 := compareVersion_ok L _ _ vp mp hvp hmp
  simp only [checkVersion, hs, hc, hi, h1, h2, h3, h4]
  refine ⟨?_, ?_, ?_, ?_⟩
  · intro hneg
    simp [hneg]
  · intro hpos hb
    have hc0 : ¬ c < 0 := by omega
    simp [hc0, hb]
  · intro hpos hb ha
    have hc0 : ¬ c < 0 := by omega
    cases hb2 : L.LessThan mb vb <;> simp [hc0, hb, ha, hb2]
  · intro hpos hb ha hp
    have hc0 : ¬ c < 0 := by omega
    cases hb2 : L.LessThan mb vb <;> cases ha2 : L.LessThan ma va <;>
      simp [hc0, hb, ha, hp, hb2, ha2]

/-- C3, at the two examples of the claim: with the systemd and the API version
both too old the systemd error is returned; with the binary and the Appc
version both too old, the binary error. -/
theorem checkVersion_first_violation_witness :
    (checkVersion goLib testRuntime "1.2.3" "1.2.3" "1.2.4" "1.2.7" "101").err
        = some (systemdTooOld "100" "101")
    ∧ goLib.LessThan ⟨1, 2, 6, "alpha", ""⟩ ⟨1, 2, 7, "", ""⟩ = true
    ∧ (checkVersion goLib testRuntime "1.2.4" "1.2.4" "1.2.5" "1.2.5" "100").err
        = some (binaryTooOld "1.2.3+git" "1.2.4")
    ∧ goLib.LessThan ⟨1, 2, 4, "", "git"⟩ ⟨1, 2, 5, "", ""⟩ = true :=
  ⟨(checkVersion_first_violation goLib testRuntime "1.2.3" "1.2.3" "1.2.4" "1.2.7" "101"
      100 ⟨"1.2.3+git", "1.2.4+git", "1.2.6-alpha"⟩ (-1)
      ⟨1, 2, 3, "", "git"⟩ ⟨1, 2, 4, "", "git"⟩ ⟨1, 2, 6, "alpha", ""⟩
      ⟨1, 2, 3, "", ""⟩ ⟨1, 2, 3, "", ""⟩ ⟨1, 2, 4, "", ""⟩ ⟨1, 2, 7, "", ""⟩
      rfl rfl (by decide) (by decide) (by decide) (by decide) (by decide) (by decide)
      (by decide) (by decide)).1 (by decide),
    by decide,
    (checkVersion_first_violation goLib testRuntime "1.2.4" "1.2.4" "1.2.5" "1.2.5" "100"
      100 ⟨"1.2.3+git", "1.2.4+git", "1.2.6-alpha"⟩ 0
      ⟨1, 2, 3, "", "git"⟩ ⟨1, 2, 4, "", "git"⟩ ⟨1, 2, 6, "alpha", ""⟩
      ⟨1, 2, 4, "", ""⟩ ⟨1, 2, 4, "", ""⟩ ⟨1, 2, 5, "", ""⟩ ⟨1, 2, 5, "", ""⟩
      rfl rfl (by decide) (by decide) (by decide) (by decide) (by decide) (by decide)
      (by decide) (by decide)).2.1 (by decide) (by decide),
    by decide⟩

/-- C4: when `systemd.Version()` fails, or its version compares below the
minimum, or that comparison fails, the returned error, the four fields and the
events are the same whatever the info provider would answer, and `GetInfo` is
not called. -/
theorem checkVersion_systemd_failure_hides_info (L : Lib) (r : Runtime L)
    (minimumRktBinVersion recommendRktBinVersion minimumAppcVersion
      minimumRktApiVersion minimumSystemdVersion : String)
    (h : (∃ e, r.systemd = .error e) ∨
      ∃ sv, r.systemd = .ok sv ∧
        ((∃ e, L.systemdCompare sv minimumSystemdVersion = .error e) ∨
          ∃ c, L.systemdCompare sv minimumSystemdVersion = .ok c ∧ c < 0))
    (answer : Except GoError Info) :
    (checkVersion L { r with apisvc := answer } minimumRktBinVersion recommendRktBinVersion
        minimumAppcVersion minimumRktApiVersion minimumSystemdVersion).err
      = (checkVersion L r minimumRktBinVersion recommendRktBinVersion
        minimumAppcVersion minimumRktApiVersion minimumSystemdVersion).err
    ∧ (checkVersion L r minimumRktBinVersion recommendRktBinVersion
        minimumAppcVersion minimumRktApiVersion minimumSystemdVersion).err ≠ none
    ∧ (checkVersion L { r with apisvc := answer } minimumRktBinVersion recommendRktBinVersion
        minimumAppcVersion minimumRktApiVersion minimumSystemdVersion).runtime.binVersion
      = r.binVersion
    ∧ (checkVersion L { r with apisvc := answer } minimumRktBinVersion recommendRktBinVersion
        minimumAppcVersion minimumRktApiVersion minimumSystemdVersion).runtime.appcVersion
      = r.appcVersion
    ∧ (checkVersion L { r with apisvc := answer } minimumRktBinVersion recommendRktBinVersion
        minimumAppcVersion minimumRktApiVersion minimumSystemdVersion).runtime.apiVersion
      = r.apiVersion
    ∧ (checkVersion L { r with apisvc := answer } minimumRktBinVersion recommendRktBinVersion
        minimumAppcVersion minimumRktApiVersion minimumSystemdVersion).runtime.systemdVersion
      = r.systemdVersion
    ∧ (checkVersion L { r with apisvc := answer } minimumRktBinVersion recommendRktBinVersion
        minimumAppcVersion minimumRktApiVersion minimumSystemdVersion).events
      = [Event.callSystemdVersion] := by
  rcases h with ⟨e, he⟩ | ⟨sv, hsv, ⟨e, he⟩ | ⟨c, hc, hneg⟩⟩
  · simp [checkVersion, he]
  · simp [checkVersion, hsv, he]
  · simp [checkVersion, hsv, hc, hneg]

/-- C4, at the last case of `TestCheckVersion` with an info provider that
fails: the systemd error is the one returned and `GetInfo` is not called. -/
theorem checkVersion_systemd_failure_hides_info_witness :
    (checkVersion goLib { testRuntime with apisvc := .error ⟨"rpc", "unavailable"⟩ }
        "1.2.3" "1.2.3" "1.2.4" "1.2.7" "101").err
      = (checkVersion goLib testRuntime "1.2.3" "1.2.3" "1.2.4" "1.2.7" "101").err
    ∧ (checkVersion goLib testRuntime "1.2.3" "1.2.3" "1.2.4" "1.2.7" "101").err
      = some (systemdTooOld "100" "101")
    ∧ (checkVersion goLib { testRuntime with apisvc := .error ⟨"rpc", "unavailable"⟩ }
        "1.2.3" "1.2.3" "1.2.4" "1.2.7" "101").events = [Event.callSystemdVersion] :=
  ⟨(checkVersion_systemd_failure_hides_info goLib testRuntime "1.2.3" "1.2.3" "1.2.4"
      "1.2.7" "101" (Or.inr ⟨100, rfl, Or.inr ⟨-1, by decide, by decide⟩⟩)
      (.error ⟨"rpc", "unavailable"⟩)).1,
    by decide,
    (checkVersion_systemd_failure_hides_info goLib testRuntime "1.2.3" "1.2.3" "1.2.4"
      "1.2.7" "101" (Or.inr ⟨100, rfl, Or.inr ⟨-1, by decide, by decide⟩⟩)
      (.error ⟨"rpc", "unavailable"⟩)).2.2.2.2.2.2⟩

/-- With the reported binary version and the recommended one both parsing, the
comparison of step 5 returns a result and no error. -/
theorem compareVersion_recommend_ok (L : Lib) (info : Info) (minimum recommend : String)
    (v : L.Version) (c : Int) (hv : L.NewVersion recommend = .ok v)
    (hc : compareVersion L info.RktVersion minimum = .ok c) :
    ∃ c2, compareVersion L info.RktVersion recommend = .ok c2 := by
  cases hb : L.NewVersion info.RktVersion with
  | error e => simp [compareVersion, hb] at hc
  | ok vb => exact ⟨_, compareVersion_ok L _ _ vb v hb hv⟩

/-- The error and the `Runtime` of a run do not depend on the recommended version,
as long as it parses. -/
theorem checkVersion_recommend_parsed (L : Lib) (r : Runtime L)
    (a recommend recommend2 b c d : String) (v v2 : L.Version)
    (hv : L.NewVersion recommend = .ok v) (hv2 : L.NewVersion recommend2 = .ok v2) :
    (checkVersion L r a recommend b c d).err = (checkVersion L r a recommend2 b c d).err
    ∧ (checkVersion L r a recommend b c d).runtime
      = (checkVersion L r a recommend2 b c d).runtime := by
  cases hs : r.systemd with
  | error e => simp only [checkVersion, hs, and_self]
  | ok sv =>
    cases hc : L.systemdCompare sv d with
    | error e => simp only [checkVersion, hs, hc, and_self]
    | ok c0 =>
      by_cases hneg : c0 < 0
      · simp only [checkVersion, hs, hc, hneg, if_true, and_self]
      · cases hi : r.apisvc with
        | error e => simp only [checkVersion, hs, hc, hi, hneg, if_false, and_self]
        | ok info =>
          cases hb : compareVersion L info.RktVersion a with
          | error e => simp only [checkVersion, hs, hc, hi, hb, hneg, if_false, and_self]
          | ok c1 =>
            obtain ⟨x, hx⟩ := compareVersion_recommend_ok L info a recommend v c1 hv hb
            obtain ⟨y, hy⟩ := compareVersion_recommend_ok L info a recommend2 v2 c1 hv2 hb
            simp only [checkVersion, hs, hc, hi, hb, hneg, if_false, hx, hy]
            repeat' split
            all_goals exact ⟨rfl, rfl⟩

/-- C5: for two recommended versions that both parse, whichever way each
compares with the reported binary version, `checkVersion` returns the same
error or success and leaves the same four fields. -/
theorem checkVersion_recommend_advisory (L : Lib) (r : Runtime L)
    (minimumRktBinVersion recommendRktBinVersion otherRecommend minimumAppcVersion
      minimumRktApiVersion minimumSystemdVersion : String) (v v2 : L.Version)
    (hv : L.NewVersion recommendRktBinVersion = .ok v)
    (hv2 : L.NewVersion otherRecommend = .ok v2) :
    (checkVersion L r minimumRktBinVersion recommendRktBinVersion minimumAppcVersion
        minimumRktApiVersion minimumSystemdVersion).err
      = (checkVersion L r minimumRktBinVersion otherRecommend minimumAppcVersion
        minimumRktApiVersion minimumSystemdVersion).err
    ∧ (checkVersion L r minimumRktBinVersion recommendRktBinVersion minimumAppcVersion
        minimumRktApiVersion minimumSystemdVersion).runtime.binVersion
      = (checkVersion L r minimumRktBinVersion otherRecommend minimumAppcVersion
        minimumRktApiVersion minimumSystemdVersion).runtime.binVersion
    ∧ (checkVersion L r minimumRktBinVersion recommendRktBinVersion minimumAppcVersion
        minimumRktApiVersion minimumSystemdVersion).runtime.appcVersion
      = (checkVersion L r minimumRktBinVersion otherRecommend minimumAppcVersion
        minimumRktApiVersion minimumSystemdVersion).runtime.appcVersion
    ∧ (checkVersion L r minimumRktBinVersion recommendRktBinVersion minimumAppcVersion
        minimumRktApiVersion minimumSystemdVersion).runtime.apiVersion
      = (checkVersion L r minimumRktBinVersion otherRecommend minimumAppcVersion
        minimumRktApiVersion minimumSystemdVersion).runtime.apiVersion
    ∧ (checkVersion L r minimumRktBinVersion recommendRktBinVersion minimumAppcVersion
        minimumRktApiVersion minimumSystemdVersion).runtime.systemdVersion
      = (checkVersion L r minimumRktBinVersion otherRecommend minimumAppcVersion
        minimumRktApiVersion minimumSystemdVersion).runtime.systemdVersion := by
  obtain ⟨he, hr⟩ := checkVersion_recommend_parsed L r minimumRktBinVersion
    recommendRktBinVersion otherRecommend minimumAppcVersion minimumRktApiVersion
    minimumSystemdVersion v v2 hv hv2
  rw [he, hr]
  exact ⟨rfl, rfl, rfl, rfl, rfl⟩

/-- C5, at the test's collaborators with a recommended version below the
reported binary version and one above it: both runs succeed. -/
theorem checkVersion_recommend_advisory_witness :
    (checkVersion goLib testRuntime "1.2.3" "0.1.0" "1.2.4" "1.2.5" "99").err
      = (checkVersion goLib testRuntime "1.2.3" "9.0.0" "1.2.4" "1.2.5" "99").err
    ∧ (checkVersion goLib testRuntime "1.2.3" "9.0.0" "1.2.4" "1.2.5" "99").err = none
    ∧ compareVersion goLib "1.2.3+git" "0.1.0" = .ok 1
    ∧ compareVersion goLib "1.2.3+git" "9.0.0" = .ok (-1) :=
  ⟨(checkVersion_recommend_advisory goLib testRuntime "1.2.3" "0.1.0" "9.0.0" "1.2.4"
      "1.2.5" "99" ⟨0, 1, 0, "", ""⟩ ⟨9, 0, 0, "", ""⟩ (by decide) (by decide)).1,
    by decide, by decide, by decide⟩

/-- C6 as stated fails: with the test's collaborators and thresholds that all
pass, a recommended version that does not parse makes `checkVersion` return the
parse error, while the reported binary version in its place gives success. -/
theorem checkVersion_recommend_malformed :
    (checkVersion goLib testRuntime "1.2.3" "bad" "1.2.4" "1.2.5" "99").err
      = some (semver.parseError "bad")
    ∧ (checkVersion goLib testRuntime "1.2.3" "1.2.3+git" "1.2.4" "1.2.5" "99").err
      = none := by
  decide

/-- C6, amended: for every recommended version that parses, `checkVersion`
returns the same result and leaves the same four fields as it does with the
reported binary version itself in that place. -/
theorem checkVersion_recommend_as_reported (L : Lib) (r : Runtime L)
    (minimumRktBinVersion recommendRktBinVersion minimumAppcVersion
      minimumRktApiVersion minimumSystemdVersion : String) (info : Info) (v : L.Version)
    (hi : r.apisvc = .ok info)
    (hv : L.NewVersion recommendRktBinVersion = .ok v) :
    (checkVersion L r minimumRktBinVersion recommendRktBinVersion minimumAppcVersion
        minimumRktApiVersion minimumSystemdVersion).err
      = (checkVersion L r minimumRktBinVersion info.RktVersion minimumAppcVersion
        minimumRktApiVersion minimumSystemdVersion).err
    ∧ (checkVersion L r minimumRktBinVersion recommendRktBinVersion minimumAppcVersion
        minimumRktApiVersion minimumSystemdVersion).runtime.binVersion
      = (checkVersion L r minimumRktBinVersion info.RktVersion minimumAppcVersion
        minimumRktApiVersion minimumSystemdVersion).runtime.binVersion
    ∧ (checkVersion L r minimumRktBinVersion recommendRktBinVersion minimumAppcVersion
        minimumRktApiVersion minimumSystemdVersion).runtime.appcVersion
      = (checkVersion L r minimumRktBinVersion info.RktVersion minimumAppcVersion
        minimumRktApiVersion minimumSystemdVersion).runtime.appcVersion
    ∧ (checkVersion L r minimumRktBinVersion recommendRktBinVersion minimumAppcVersion
        minimumRktApiVersion minimumSystemdVersion).runtime.apiVersion
      = (checkVersion L r minimumRktBinVersion info.RktVersion minimumAppcVersion
        minimumRktApiVersion minimumSystemdVersion).runtime.apiVersion
    ∧ (checkVersion L r minimumRktBinVersion recommendRktBinVersion minimumAppcVersion
        minimumRktApiVersion minimumSystemdVersion).runtime.systemdVersion
      = (checkVersion L r minimumRktBinVersion info.RktVersion minimumAppcVersion
        minimumRktApiVersion minimumSystemdVersion).runtime.systemdVersion := by
  have key : (checkVersion L r minimumRktBinVersion recommendRktBinVersion
        minimumAppcVersion minimumRktApiVersion minimumSystemdVersion).err
      = (checkVersion L r minimumRktBinVersion info.RktVersion minimumAppcVersion
        minimumRktApiVersion minimumSystemdVersion).err
    ∧ (checkVersion L r minimumRktBinVersion recommendRktBinVersion minimumAppcVersion
        minimumRktApiVersion minimumSystemdVersion).runtime
      = (checkVersion L r minimumRktBinVersion info.RktVersion minimumAppcVersion
        minimumRktApiVersion minimumSystemdVersion).runtime := by
    cases hb : L.NewVersion info.RktVersion with
    | ok vb =>
      exact checkVersion_recommend_parsed L r _ _ _ _ _ _ v vb hv hb
    | error e =>
      have hcmp : compareVersion L info.RktVersion minimumRktBinVersion = .error e := by
        simp only [compareVersion, hb]
      cases hs : r.systemd with
      | error e => simp only [checkVersion, hs, and_self]
      | ok sv =>
        cases hc : L.systemdCompare sv minimumSystemdVersion with
        | error e => simp only [checkVersion, hs, hc, and_self]
        | ok c0 =>
          by_cases hneg : c0 < 0
          · simp only [checkVersion, hs, hc, hneg, if_true, and_self]
          · simp only [checkVersion, hs, hc, hi, hcmp, hneg, if_false, and_self]
  obtain ⟨he, hr⟩ := key
  rw [he, hr]
  exact ⟨rfl, rfl, rfl, rfl, rfl⟩

/-- C6 amended, at the test's collaborators with a recommended version that
parses and differs from the reported one. -/
theorem checkVersion_recommend_as_reported_witness :
    (checkVersion goLib testRuntime "1.2.3" "9.0.0" "1.2.4" "1.2.5" "99").err
      = (checkVersion goLib testRuntime "1.2.3" "1.2.3+git" "1.2.4" "1.2.5" "99").err :=
  (checkVersion_recommend_as_reported goLib testRuntime "1.2.3" "9.0.0" "1.2.4" "1.2.5"
    "99" ⟨"1.2.3+git", "1.2.4+git", "1.2.6-alpha"⟩ ⟨9, 0, 0, "", ""⟩ rfl (by decide)).1

/-- C8: when the first failing step is a comparison that finds a version too
old, the error is the `fmt.Errorf` value whose message is made of the fixed text
of that step, the reported version as it was reported and the threshold string
as it was passed. -/
theorem checkVersion_too_old_message (L : Lib) (r : Runtime L)
    (minimumRktBinVersion recommendRktBinVersion minimumAppcVersion
      minimumRktApiVersion minimumSystemdVersion : String) :
    (∀ sv c, r.systemd = .ok sv →
      L.systemdCompare sv minimumSystemdVersion = .ok c → c < 0 →
      (checkVersion L r minimumRktBinVersion recommendRktBinVersion minimumAppcVersion
        minimumRktApiVersion minimumSystemdVersion).err
        = some (Errorf ("rkt: systemd version(" ++ L.systemdString sv
            ++ ") is too old, requires at least " ++ minimumSystemdVersion)))
    ∧ (∀ sv c info c1, r.systemd = .ok sv →
      L.systemdCompare sv minimumSystemdVersion = .ok c → 0 ≤ c →
      r.apisvc = .ok info →
      compareVersion L info.RktVersion minimumRktBinVersion = .ok c1 → c1 < 0 →
      (checkVersion L r minimumRktBinVersion recommendRktBinVersion minimumAppcVersion
        minimumRktApiVersion minimumSystemdVersion).err
        = some (Errorf ("rkt: binary version is too old(" ++ info.RktVersion
            ++ "), requires at least " ++ minimumRktBinVersion)))
    ∧ (∀ sv c info c1 c2 c3, r.systemd = .ok sv →
      L.systemdCompare sv minimumSystemdVersion = .ok c → 0 ≤ c →
      r.apisvc = .ok info →
      compareVersion L info.RktVersion minimumRktBinVersion = .ok c1 → 0 ≤ c1 →
      compareVersion L info.RktVersion recommendRktBinVersion = .ok c2 →
      compareVersion L info.AppcVersion minimumAppcVersion = .ok c3 → c3 < 0 →
      (checkVersion L r minimumRktBinVersion recommendRktBinVersion minimumAppcVersion
        minimumRktApiVersion minimumSystemdVersion).err
        = some (Errorf ("rkt: Appc version is too old(" ++ info.AppcVersion
            ++ "), requires at least " ++ minimumAppcVersion)))
    ∧ (∀ sv c info c1 c2 c3 c4, r.systemd = .ok sv →
      L.systemdCompare sv minimumSystemdVersion = .ok c → 0 ≤ c →
      r.apisvc = .ok info →
      compareVersion L info.RktVersion minimumRktBinVersion = .ok c1 → 0 ≤ c1 →
      compareVersion L info.RktVersion recommendRktBinVersion = .ok c2 →
      compareVersion L info.AppcVersion minimumAppcVersion = .ok c3 → 0 ≤ c3 →
      compareVersion L info.ApiVersion minimumRktApiVersion = .ok c4 → c4 < 0 →
      (checkVersion L r minimumRktBinVersion recommendRktBinVersion minimumAppcVersion
        minimumRktApiVersion minimumSystemdVersion).err
        = some (Errorf ("rkt: API version is too old(" ++ info.ApiVersion
            ++ "), requires at least " ++ minimumRktApiVersion))) := by
  refine ⟨?_, ?_, ?_, ?_⟩
  · intro sv c hs hc hneg
    simp [checkVersion, hs, hc, hneg, systemdTooOld]
  · intro sv c info c1 hs hc hpos hi h1 hneg
    have hc0 : ¬ c < 0 := by omega
    simp [checkVersion, hs, hc, hc0, hi, h1, hneg, binaryTooOld]
  · intro sv c info c1 c2 c3 hs hc hpos hi h1 hpos1 h2 h3 hneg
    have hc0 : ¬ c < 0 := by omega
    have hc1 : ¬ c1 < 0 := by omega
    simp [checkVersion, hs, hc, hc0, hi, h1, hc1, h2, h3, hneg, appcTooOld]
  · intro sv c info c1 c2 c3 c4 hs hc hpos hi h1 hpos1 h2 h3 hpos3 h4 hneg
    have hc0 : ¬ c < 0 := by omega
    have hc1 : ¬ c1 < 0 := by omega
    have hc3 : ¬ c3 < 0 := by omega
    simp [checkVersion, hs, hc, hc0, hi, h1, hc1, h2, h3, hc3, h4, hneg, apiTooOld]

/-- C8, at the failing cases of `TestCheckVersion`: the messages carry
"1.2.3+git", "1.2.4+git" and "1.2.6-alpha" as reported. -/
theorem checkVersion_too_old_message_witness :
    (checkVersion goLib testRuntime "1.2.3" "1.2.3" "1.2.4" "1.2.7" "101").err
      = some ⟨"*errors.errorString",
          "rkt: systemd version(100) is too old, requires at least 101"⟩
    ∧ (checkVersion goLib testRuntime "1.2.4" "1.2.4" "1.2.4" "1.2.6-alpha" "100").err
      = some ⟨"*errors.errorString",
          "rkt: binary version is too old(1.2.3+git), requires at least 1.2.4"⟩
    ∧ (checkVersion goLib testRuntime "1.2.3" "1.2.3" "1.2.5" "1.2.6-alpha" "100").err
      = some ⟨"*errors.errorString",
          "rkt: Appc version is too old(1.2.4+git), requires at least 1.2.5"⟩
    ∧ (checkVersion goLib testRuntime "1.2.3" "1.2.3" "1.2.4" "1.2.6" "100").err
      = some ⟨"*errors.errorString",
          "rkt: API version is too old(1.2.6-alpha), requires at least 1.2.6"⟩ :=
  ⟨(checkVersion_too_old_message goLib testRuntime "1.2.3" "1.2.3" "1.2.4" "1.2.7"
      "101").1 100 (-1) rfl (by decide) (by decide),
    (checkVersion_too_old_message goLib testRuntime "1.2.4" "1.2.4" "1.2.4" "1.2.6-alpha"
      "100").2.1 100 0 ⟨"1.2.3+git", "1.2.4+git", "1.2.6-alpha"⟩ (-1)
      rfl (by decide) (by decide) rfl (by decide) (by decide),
    (checkVersion_too_old_message goLib testRuntime "1.2.3" "1.2.3" "1.2.5" "1.2.6-alpha"
      "100").2.2.1 100 0 ⟨"1.2.3+git", "1.2.4+git", "1.2.6-alpha"⟩ 0 0 (-1)
      rfl (by decide) (by decide) rfl (by decide) (by decide) (by decide) (by decide)
      (by decide),
    (checkVersion_too_old_message goLib testRuntime "1.2.3" "1.2.3" "1.2.4" "1.2.6"
      "100").2.2.2 100 0 ⟨"1.2.3+git", "1.2.4+git", "1.2.6-alpha"⟩ 0 0 0 (-1)
      rfl (by decide) (by decide) rfl (by decide) (by decide) (by decide) (by decide)
      (by decide) (by decide) (by decide)⟩

/-- An error returned by `checkVersion` is one of the four too-old errors or the
error that a collaborator, the systemd comparison or `NewVersion` gave. -/
theorem checkVersion_error_source (L : Lib) (r : Runtime L) (a b c d s : String)
    (e : GoError) (h : (checkVersion L r a b c d s).err = some e) :
    (∃ sv, r.systemd = .ok sv ∧ e = systemdTooOld (L.systemdString sv) s)
    ∨ (∃ info, r.apisvc = .ok info ∧
        (e = binaryTooOld info.RktVersion a ∨ e = appcTooOld info.AppcVersion c
          ∨ e = apiTooOld info.ApiVersion d))
    ∨ r.systemd = .error e
    ∨ (∃ sv, r.systemd = .ok sv ∧ L.systemdCompare sv s = .error e)
    ∨ r.apisvc = .error e
    ∨ (∃ info, r.apisvc = .ok info ∧
        ∃ text, text ∈ [info.RktVersion, a, b, info.AppcVersion, c, info.ApiVersion, d]
          ∧ L.NewVersion text = .error e) := by
  cases hs : r.systemd with
  | error e0 =>
    simp only [checkVersion, hs, Option.some.injEq] at h
    subst h
    simp
  | ok sv =>
    cases hc : L.systemdCompare sv s with
    | error e0 =>
      simp only [checkVersion, hs, hc, Option.some.injEq] at h
      subst h
      simp [hc]
    | ok c0 =>
      by_cases hneg : c0 < 0
      · simp only [checkVersion, hs, hc, hneg, if_true, Option.some.injEq] at h
        subst h
        simp
      · cases hi : r.apisvc with
        | error e0 =>
          simp only [checkVersion, hs, hc, hi, hneg, if_false, Option.some.injEq] at h
          subst h
          simp
        | ok info =>
          have src : ∀ x y, compareVersion L x y = .error e →
              x ∈ [info.RktVersion, a, b, info.AppcVersion, c, info.ApiVersion, d] →
              y ∈ [info.RktVersion, a, b, info.AppcVersion, c, info.ApiVersion, d] →
              ∃ info2, Except.ok info = Except.ok (ε := GoError) info2 ∧
                ∃ text, text ∈ [info2.RktVersion, a, b, info2.AppcVersion, c,
                  info2.ApiVersion, d] ∧ L.NewVersion text = .error e := by
            intro x y hxy hx hy
            rcases compareVersion_error L x y e hxy with h1 | h1
            · exact ⟨info, rfl, x, hx, h1⟩
            · exact ⟨info, rfl, y, hy, h1⟩
          have old : (e = binaryTooOld info.RktVersion a ∨ e = appcTooOld info.AppcVersion c
              ∨ e = apiTooOld info.ApiVersion d) →
              ∃ info2, Except.ok info = Except.ok (ε := GoError) info2 ∧
                (e = binaryTooOld info2.RktVersion a ∨ e = appcTooOld info2.AppcVersion c
                  ∨ e = apiTooOld info2.ApiVersion d) := fun hx => ⟨info, rfl, hx⟩
          simp only [checkVersion, hs, hc, hi, hneg, if_false] at h
          cases h1 : compareVersion L info.RktVersion a with
          | error e1 =>
            simp only [h1, Option.some.injEq] at h
            subst h
            exact Or.inr (Or.inr (Or.inr (Or.inr (Or.inr
              (src _ _ h1 (by simp) (by simp))))))
          | ok c1 =>
            by_cases hneg1 : c1 < 0
            · simp only [h1, hneg1, if_true, Option.some.injEq] at h
              exact Or.inr (Or.inl (old (Or.inl h.symm)))
            · cases h2 : compareVersion L info.RktVersion b with
              | error e2 =>
                simp only [h1, hneg1, if_false, h2, Option.some.injEq] at h
                subst h
                exact Or.inr (Or.inr (Or.inr (Or.inr (Or.inr
                  (src _ _ h2 (by simp) (by simp))))))
              | ok c2 =>
                cases h3 : compareVersion L info.AppcVersion c with
                | error e3 =>
                  simp only [h1, hneg1, if_false, h2, h3, Option.some.injEq] at h
                  subst h
                  exact Or.inr (Or.inr (Or.inr (Or.inr (Or.inr
                    (src _ _ h3 (by simp) (by simp))))))
                | ok c3 =>
                  by_cases hneg3 : c3 < 0
                  · simp only [h1, hneg1, if_false, h2, h3, hneg3, if_true,
                      Option.some.injEq] at h
                    exact Or.inr (Or.inl (old (Or.inr (Or.inl h.symm))))
                  · cases h4 : compareVersion L info.ApiVersion d with
                    | error e4 =>
                      simp only [h1, hneg1, if_false, h2, h3, hneg3, h4,
                        Option.some.injEq] at h
                      subst h
                      exact Or.inr (Or.inr (Or.inr (Or.inr (Or.inr
                        (src _ _ h4 (by simp) (by simp))))))
                    | ok c4 =>
                      by_cases hneg4 : c4 < 0
                      · simp only [h1, hneg1, if_false, h2, h3, hneg3, h4, hneg4, if_true,
                          Option.some.injEq] at h
                        exact Or.inr (Or.inl (old (Or.inr (Or.inr h.symm))))
                      · simp only [h1, hneg1, if_false, h2, h3, hneg3, h4, hneg4] at h
                        cases h

/-- C9: the error of the first step that fails other than by finding a version
too old is returned as it is: the error of `systemd.Version()`, of the systemd
comparison, of `GetInfo()`, or of the comparison of versions that failed, which
is the error `NewVersion` gave; and every error returned is one of these or one
of the four too-old errors. -/
theorem checkVersion_error_verbatim (L : Lib) (r : Runtime L)
    (minimumRktBinVersion recommendRktBinVersion minimumAppcVersion
      minimumRktApiVersion minimumSystemdVersion : String) :
    (∀ e, r.systemd = .error e → (checkVersion L r minimumRktBinVersion recommendRktBinVersion minimumAppcVersion
        minimumRktApiVersion minimumSystemdVersion).err = some e)
    ∧ (∀ sv e, r.systemd = .ok sv →
      L.systemdCompare sv minimumSystemdVersion = .error e → (checkVersion L r minimumRktBinVersion recommendRktBinVersion minimumAppcVersion
        minimumRktApiVersion minimumSystemdVersion).err = some e)
    ∧ (∀ sv c e, r.systemd = .ok sv →
      L.systemdCompare sv minimumSystemdVersion = .ok c → 0 ≤ c →
      r.apisvc = .error e → (checkVersion L r minimumRktBinVersion recommendRktBinVersion minimumAppcVersion
        minimumRktApiVersion minimumSystemdVersion).err = some e)
    ∧ (∀ sv c info e, r.systemd = .ok sv →
      L.systemdCompare sv minimumSystemdVersion = .ok c → 0 ≤ c →
      r.apisvc = .ok info →
      compareVersion L info.RktVersion minimumRktBinVersion = .error e → (checkVersion L r minimumRktBinVersion recommendRktBinVersion minimumAppcVersion
        minimumRktApiVersion minimumSystemdVersion).err = some e)
    ∧ (∀ sv c info c1 e, r.systemd = .ok sv →
      L.systemdCompare sv minimumSystemdVersion = .ok c → 0 ≤ c →
      r.apisvc = .ok info →
      compareVersion L info.RktVersion minimumRktBinVersion = .ok c1 → 0 ≤ c1 →
      compareVersion L info.RktVersion recommendRktBinVersion = .error e → (checkVersion L r minimumRktBinVersion recommendRktBinVersion minimumAppcVersion
        minimumRktApiVersion minimumSystemdVersion).err = some e)
    ∧ (∀ sv c info c1 c2 e, r.systemd = .ok sv →
      L.systemdCompare sv minimumSystemdVersion = .ok c → 0 ≤ c →
      r.apisvc = .ok info →
      compareVersion L info.RktVersion minimumRktBinVersion = .ok c1 → 0 ≤ c1 →
      compareVersion L info.RktVersion recommendRktBinVersion = .ok c2 →
      compareVersion L info.AppcVersion minimumAppcVersion = .error e → (checkVersion L r minimumRktBinVersion recommendRktBinVersion minimumAppcVersion
        minimumRktApiVersion minimumSystemdVersion).err = some e)
    ∧ (∀ sv c info c1 c2 c3 e, r.systemd = .ok sv →
      L.systemdCompare sv minimumSystemdVersion = .ok c → 0 ≤ c →
      r.apisvc = .ok info →
      compareVersion L info.RktVersion minimumRktBinVersion = .ok c1 → 0 ≤ c1 →
      compareVersion L info.RktVersion recommendRktBinVersion = .ok c2 →
      compareVersion L info.AppcVersion minimumAppcVersion = .ok c3 → 0 ≤ c3 →
      compareVersion L info.ApiVersion minimumRktApiVersion = .error e → (checkVersion L r minimumRktBinVersion recommendRktBinVersion minimumAppcVersion
        minimumRktApiVersion minimumSystemdVersion).err = some e)
    ∧ (∀ v1 v2 e, compareVersion L v1 v2 = .error e →
      L.NewVersion v1 = .error e ∨ L.NewVersion v2 = .error e)
    ∧ (∀ e, (checkVersion L r minimumRktBinVersion recommendRktBinVersion minimumAppcVersion
        minimumRktApiVersion minimumSystemdVersion).err = some e →
      (∃ sv, r.systemd = .ok sv
          ∧ e = systemdTooOld (L.systemdString sv) minimumSystemdVersion)
      ∨ (∃ info, r.apisvc = .ok info ∧
          (e = binaryTooOld info.RktVersion minimumRktBinVersion
            ∨ e = appcTooOld info.AppcVersion minimumAppcVersion
            ∨ e = apiTooOld info.ApiVersion minimumRktApiVersion))
      ∨ r.systemd = .error e
      ∨ (∃ sv, r.systemd = .ok sv ∧ L.systemdCompare sv minimumSystemdVersion = .error e)
      ∨ r.apisvc = .error e
      ∨ (∃ info, r.apisvc = .ok info ∧
          ∃ text, text ∈ [info.RktVersion, minimumRktBinVersion, recommendRktBinVersion,
              info.AppcVersion, minimumAppcVersion, info.ApiVersion, minimumRktApiVersion]
            ∧ L.NewVersion text = .error e)) := by
  refine ⟨?_, ?_, ?_, ?_, ?_, ?_, ?_, ?_, ?_⟩
  · intro e hs
    simp [checkVersion, hs]
  · intro sv e hs hc
    simp [checkVersion, hs, hc]
  · intro sv c e hs hc hpos hi
    have hc0 : ¬ c < 0 := by omega
    simp [checkVersion, hs, hc, hc0, hi]
  · intro sv c info e hs hc hpos hi h1
    have hc0 : ¬ c < 0 := by omega
    simp [checkVersion, hs, hc, hc0, hi, h1]
  · intro sv c info c1 e hs hc hpos hi h1 hpos1 h2
    have hc0 : ¬ c < 0 := by omega
    have hc1 : ¬ c1 < 0 := by omega
    simp [checkVersion, hs, hc, hc0, hi, h1, hc1, h2]
  · intro sv c info c1 c2 e hs hc hpos hi h1 hpos1 h2 h3
    have hc0 : ¬ c < 0 := by omega
    have hc1 : ¬ c1 < 0 := by omega
    simp [checkVersion, hs, hc, hc0, hi, h1, hc1, h2, h3]
  · intro sv c info c1 c2 c3 e hs hc hpos hi h1 hpos1 h2 h3 hpos3 h4
    have hc0 : ¬ c < 0 := by omega
    have hc1 : ¬ c1 < 0 := by omega
    have hc3 : ¬ c3 < 0 := by omega
    simp [checkVersion, hs, hc, hc0, hi, h1, hc1, h2, h3, hc3, h4]
  · exact fun v1 v2 e h => compareVersion_error L v1 v2 e h
  · exact fun e h => checkVersion_error_source L r _ _ _ _ _ e h

/-- C9, at the test's thresholds: a failing `systemd.Version()`, a failing
`GetInfo()` and a threshold that does not parse each come back as they are. -/
theorem checkVersion_error_verbatim_witness :
    (checkVersion goLib { testRuntime with systemd := .error ⟨"dbus", "no connection"⟩ }
        "1.2.3" "1.2.3" "1.2.4" "1.2.5" "99").err = some ⟨"dbus", "no connection"⟩
    ∧ (checkVersion goLib { testRuntime with apisvc := .error ⟨"rpc", "unavailable"⟩ }
        "1.2.3" "1.2.3" "1.2.4" "1.2.5" "99").err = some ⟨"rpc", "unavailable"⟩
    ∧ (checkVersion goLib testRuntime "1.2" "1.2.3" "1.2.4" "1.2.5" "99").err
      = some (semver.parseError "1.2") :=
  ⟨(checkVersion_error_verbatim goLib
      { testRuntime with systemd := .error ⟨"dbus", "no connection"⟩ }
      "1.2.3" "1.2.3" "1.2.4" "1.2.5" "99").1 _ rfl,
    (checkVersion_error_verbatim goLib
      { testRuntime with apisvc := .error ⟨"rpc", "unavailable"⟩ }
      "1.2.3" "1.2.3" "1.2.4" "1.2.5" "99").2.2.1 100 1 _ rfl (by decide) (by decide) rfl,
    (checkVersion_error_verbatim goLib testRuntime "1.2" "1.2.3" "1.2.4" "1.2.5"
      "99").2.2.2.1 100 1 ⟨"1.2.3+git", "1.2.4+git", "1.2.6-alpha"⟩ _ rfl (by decide)
      (by decide) rfl (by decide)⟩

end rkt

/-! ## The order of versions -/

namespace semver

/-- Swapping the two numbers negates the result. -/
theorem compareNat_antisymm (a b : Nat) : compareNat a b = -compareNat b a := by
  unfold compareNat
  split_ifs <;> omega

/-- A number compares equal to itself. -/
theorem compareNat_self (a : Nat) : compareNat a a = 0 := by
  simp [compareNat]

/-- The result is -1, 0 or 1. -/
theorem compareNat_range (a b : Nat) :
    compareNat a b = -1 ∨ compareNat a b = 0 ∨ compareNat a b = 1 := by
  unfold compareNat
  split_ifs <;> simp

/-- Swapping the two texts negates the result. -/
theorem compareText_antisymm : ∀ a b : List Char, compareText a b = -compareText b a
  | [], [] => by simp [compareText]
  | [], _ :: _ => by simp [compareText]
  | _ :: _, [] => by simp [compareText]
  | x :: a, y :: b => by
    have ih := compareText_antisymm a b
    simp only [compareText]
    split_ifs <;> omega

/-- A text compares equal to itself. -/
theorem compareText_self : ∀ a : List Char, compareText a a = 0
  | [] => by simp [compareText]
  | x :: a => by simp [compareText, compareText_self a]

/-- The result is -1, 0 or 1. -/
theorem compareText_range : ∀ a b : List Char,
    compareText a b = -1 ∨ compareText a b = 0 ∨ compareText a b = 1
  | [], [] => by simp [compareText]
  | [], _ :: _ => by simp [compareText]
  | _ :: _, [] => by simp [compareText]
  | x :: a, y :: b => by
    have ih := compareText_range a b
    simp only [compareText]
    split_ifs <;> simp [ih]

/-- Swapping the two integers negates the result. -/
theorem compareInt_antisymm (a b : Int) : compareInt a b = -compareInt b a := by
  unfold compareInt
  split_ifs <;> omega

/-- An integer compares equal to itself. -/
theorem compareInt_self (a : Int) : compareInt a a = 0 := by
  simp [compareInt]

/-- The result is -1, 0 or 1. -/
theorem compareInt_range (a b : Int) :
    compareInt a b = -1 ∨ compareInt a b = 0 ∨ compareInt a b = 1 := by
  unfold compareInt
  split_ifs <;> simp

/-- Swapping the two fields negates the result. -/
theorem compareField_antisymm (a b : List Char) : compareField a b = -compareField b a := by
  have ht := compareText_antisymm a b
  unfold compareField
  cases atoi a with
  | none => cases atoi b <;> exact ht
  | some x =>
    cases atoi b with
    | none => exact ht
    | some y =>
      have h := compareInt_antisymm x y
      simp only []
      split_ifs <;> omega

/-- A field compares equal to itself. -/
theorem compareField_self (a : List Char) : compareField a a = 0 := by
  unfold compareField
  cases atoi a <;> simp [compareInt_self, compareText_self]

/-- The result is -1, 0 or 1. -/
theorem compareField_range (a b : List Char) :
    compareField a b = -1 ∨ compareField a b = 0 ∨ compareField a b = 1 := by
  have ht := compareText_range a b
  unfold compareField
  cases atoi a with
  | none => cases atoi b <;> exact ht
  | some x =>
    cases atoi b with
    | none => exact ht
    | some y =>
      have h := compareInt_range x y
      simp only []
      split_ifs <;> assumption

/-- When the first sequence of fields comes out lower, the swapped comparison
gives 1. -/
theorem recursivePreReleaseCompare_asymm : ∀ a b : List (List Char),
    recursivePreReleaseCompare a b = -1 → recursivePreReleaseCompare b a = 1
  | [], _, h => by simp [recursivePreReleaseCompare] at h
  | _ :: _, [], h => by simp [recursivePreReleaseCompare] at h
  | x :: a, y :: b, h => by
    have ih := recursivePreReleaseCompare_asymm a b
    have hf := compareField_antisymm x y
    simp only [recursivePreReleaseCompare] at h ⊢
    split_ifs at h with h0
    · have h1 : compareField y x ≠ 0 := by omega
      rw [if_pos h1]
      omega
    · have h1 : ¬ compareField y x ≠ 0 := by omega
      rw [if_neg h1]
      exact ih h

/-- A sequence of fields compares equal to itself. -/
theorem recursivePreReleaseCompare_self : ∀ a : List (List Char),
    recursivePreReleaseCompare a a = 0
  | [] => by simp [recursivePreReleaseCompare]
  | x :: a => by
    simp [recursivePreReleaseCompare, compareField_self, recursivePreReleaseCompare_self a]

/-- The result is -1, 0 or 1. -/
theorem recursivePreReleaseCompare_range : ∀ a b : List (List Char),
    recursivePreReleaseCompare a b = -1 ∨ recursivePreReleaseCompare a b = 0
      ∨ recursivePreReleaseCompare a b = 1
  | [], _ => by simp [recursivePreReleaseCompare]
  | _ :: _, [] => by simp [recursivePreReleaseCompare]
  | x :: a, y :: b => by
    have ih := recursivePreReleaseCompare_range a b
    have hf := compareField_range x y
    simp only [recursivePreReleaseCompare]
    split_ifs <;> assumption

/-- When the pre-release part of the first version comes out lower, the swapped
comparison gives 1. -/
theorem preReleaseCompare_asymm (a b : Version) (h : preReleaseCompare a b = -1) :
    preReleaseCompare b a = 1 := by
  have hr := recursivePreReleaseCompare_asymm (fields a.PreRelease.data)
    (fields b.PreRelease.data)
  unfold preReleaseCompare at h ⊢
  split_ifs at h with c1 c2
  all_goals first
    | exact absurd h (by decide)
    | rw [if_pos c2]
    | (rw [if_neg c2, if_neg c1]; exact hr h)

/-- The pre-release parts of a version compare equal to themselves. -/
theorem preReleaseCompare_self (a : Version) : preReleaseCompare a a = 0 := by
  unfold preReleaseCompare
  by_cases ha : a.PreRelease = "" <;> simp [ha, recursivePreReleaseCompare_self]

/-- The result is -1, 0 or 1. -/
theorem preReleaseCompare_range (a b : Version) :
    preReleaseCompare a b = -1 ∨ preReleaseCompare a b = 0 ∨ preReleaseCompare a b = 1 := by
  have h := recursivePreReleaseCompare_range (fields a.PreRelease.data)
    (fields b.PreRelease.data)
  unfold preReleaseCompare
  split_ifs <;> simp [h]

/-- Swapping the two lists of numbers negates the result. -/
theorem recursiveCompare_antisymm : ∀ a b : List Nat,
    recursiveCompare a b = -recursiveCompare b a
  | [], [] => by simp [recursiveCompare]
  | [], _ :: _ => by simp [recursiveCompare]
  | _ :: _, [] => by simp [recursiveCompare]
  | x :: a, y :: b => by
    have ih := recursiveCompare_antisymm a b
    have hn := compareNat_antisymm x y
    simp only [recursiveCompare]
    split_ifs <;> omega

/-- A list of numbers compares equal to itself. -/
theorem recursiveCompare_self : ∀ a : List Nat, recursiveCompare a a = 0
  | [] => by simp [recursiveCompare]
  | x :: a => by simp [recursiveCompare, compareNat_self, recursiveCompare_self a]

/-- The result is -1, 0 or 1. -/
theorem recursiveCompare_range : ∀ a b : List Nat,
    recursiveCompare a b = -1 ∨ recursiveCompare a b = 0 ∨ recursiveCompare a b = 1
  | [], [] => by simp [recursiveCompare]
  | [], _ :: _ => by simp [recursiveCompare]
  | _ :: _, [] => by simp [recursiveCompare]
  | x :: a, y :: b => by
    have ih := recursiveCompare_range a b
    have hn := compareNat_range x y
    simp only [recursiveCompare]
    split_ifs <;> assumption

/-- When the first version comes out lower, the swapped comparison gives 1: no
two versions are each less than the other. -/
theorem Compare_asymm (a b : Version) (h : a.Compare b = -1) : b.Compare a = 1 := by
  have h1 := recursiveCompare_antisymm a.Slice b.Slice
  have h2 := preReleaseCompare_asymm a b
  unfold Version.Compare at h ⊢
  split_ifs at h with h0
  · have h3 : recursiveCompare b.Slice a.Slice ≠ 0 := by omega
    rw [if_pos h3]
    omega
  · have h3 : ¬ recursiveCompare b.Slice a.Slice ≠ 0 := by omega
    rw [if_neg h3]
    exact h2 h

/-- A version compares equal to itself. -/
theorem Compare_self (a : Version) : a.Compare a = 0 := by
  simp [Version.Compare, recursiveCompare_self, preReleaseCompare_self]

/-- The comparison of two versions gives -1, 0 or 1. -/
theorem Compare_range (a b : Version) :
    a.Compare b = -1 ∨ a.Compare b = 0 ∨ a.Compare b = 1 := by
  have h1 := recursiveCompare_range a.Slice b.Slice
  have h2 := preReleaseCompare_range a b
  unfold Version.Compare
  split_ifs <;> assumption

/-- Swapping the two versions negates the result built from the two `LessThan`
tests. -/
theorem sign_antisymm (a b : Version) : sign a b = -sign b a := by
  have h1 := Compare_asymm a b
  have h2 := Compare_asymm b a
  unfold sign
  split_ifs with p q <;> first | rfl | (exfalso; have := h1 p; omega)

/-- A version gets 0 against itself. -/
theorem sign_self (a : Version) : sign a a = 0 := by
  simp [sign, Compare_self]

/-- The result is -1, 0 or 1. -/
theorem sign_range (a b : Version) : sign a b = -1 ∨ sign a b = 0 ∨ sign a b = 1 := by
  unfold sign
  split_ifs <;> simp

/-- The result is decided by the numbers and, when they are equal, by the
pre-release parts. -/
theorem sign_lex (a b : Version) :
    sign a b = if recursiveCompare a.Slice b.Slice ≠ 0 then recursiveCompare a.Slice b.Slice
      else preSign a b := by
  have h1 := recursiveCompare_antisymm a.Slice b.Slice
  have h2 := recursiveCompare_range a.Slice b.Slice
  unfold sign preSign Version.Compare
  rcases h2 with h | h | h <;> simp [h, show recursiveCompare b.Slice a.Slice = _ from by
    rw [recursiveCompare_antisymm b.Slice a.Slice, h]]

end semver

namespace rkt

/-- With the library of the specification, `compareVersion` on two strings that
parse returns the result built from the two `LessThan` tests on the versions. -/
theorem compareVersion_goLib (v1 v2 : String) (a b : semver.Version)
    (h1 : semver.NewVersion v1 = .ok a) (h2 : semver.NewVersion v2 = .ok b) :
    compareVersion goLib v1 v2 = .ok (semver.sign a b) := by
  rw [compareVersion_ok goLib v1 v2 a b h1 h2]
  simp only [semver.Version.LessThan, decide_eq_true_eq, semver.sign]

/-- With the library of the specification, `rktVersion.Compare` on a string
that parses returns the result built from the two `LessThan` tests. -/
theorem rktVersion_Compare_goLib (r : semver.Version) (other : String) (b : semver.Version)
    (h : semver.NewVersion other = .ok b) :
    rktVersion.Compare goLib r other = .ok (semver.sign r b) := by
  simp only [rktVersion.Compare, h, semver.Version.LessThan, decide_eq_true_eq, semver.sign]
  split_ifs <;> rfl

end rkt
/-! ## Printing a version and parsing it again -/

namespace semver

/-- A digit character has the value of the digit it writes. -/
theorem digitValue_digitChar (d : Nat) (h : d < 10) : digitValue (Nat.digitChar d) = some d := by
  interval_cases d <;> decide

/-- The characters `.`, `+` and `-` are not digits. -/
theorem digitValue_separator : digitValue '.' = none ∧ digitValue '+' = none
    ∧ digitValue '-' = none := by
  decide

/-- Reading a run of digits followed by one more character. -/
theorem parseDigits_append_singleton (l : List Char) (c : Char) (acc : Nat) :
    parseDigits (l ++ [c]) acc =
      match parseDigits l acc with
      | some m => (digitValue c).map (fun d => 10 * m + d)
      | none => none := by
  induction l generalizing acc with
  | nil =>
    simp only [List.nil_append, parseDigits]
    cases digitValue c <;> rfl
  | cons x l ih =>
    simp only [List.cons_append, parseDigits]
    cases digitValue x with
    | none => rfl
    | some d => exact ih _

/-- Every character of a text that reads as a number is a digit. -/
theorem parseDigits_digit (l : List Char) (acc m : Nat) (h : parseDigits l acc = some m)
    (c : Char) (hc : c ∈ l) : digitValue c ≠ none := by
  induction l generalizing acc with
  | nil => cases hc
  | cons x l ih =>
    simp only [parseDigits] at h
    cases hx : digitValue x with
    | none => simp [hx] at h
    | some d =>
      rw [hx] at h
      rcases List.mem_cons.mp hc with rfl | hmem
      · simp [hx]
      · exact ih _ h hmem

/-- The digits already produced stay behind the ones `toDigitsCore` adds. -/
theorem toDigitsCore_append (fuel n : Nat) (ds : List Char) :
    Nat.toDigitsCore 10 fuel n ds = Nat.toDigitsCore 10 fuel n [] ++ ds := by
  induction fuel generalizing n ds with
  | zero => simp [Nat.toDigitsCore]
  | succ f ih =>
    simp only [Nat.toDigitsCore]
    split_ifs
    · simp
    · rw [ih (n / 10) (Nat.digitChar (n % 10) :: ds), ih (n / 10) [Nat.digitChar (n % 10)]]
      simp

/-- With enough fuel, the digits do not depend on the fuel. -/
theorem toDigitsCore_fuel (f1 f2 n : Nat) (h1 : n < f1) (h2 : n < f2) :
    Nat.toDigitsCore 10 f1 n [] = Nat.toDigitsCore 10 f2 n [] := by
  induction f1 generalizing n f2 with
  | zero => omega
  | succ f1 ih =>
    cases f2 with
    | zero => omega
    | succ f2 =>
      simp only [Nat.toDigitsCore]
      split_ifs with h0
      · rfl
      · have hlt : n / 10 < n := Nat.div_lt_self (by omega) (by omega)
        rw [toDigitsCore_append f1, toDigitsCore_append f2,
          ih f2 (n / 10) (by omega) (by omega)]

/-- The digits of a number below ten. -/
theorem toDigits_small (n : Nat) (h : n < 10) : Nat.toDigits 10 n = [Nat.digitChar n] := by
  have h0 : n / 10 = 0 := Nat.div_eq_of_lt h
  have h1 : n % 10 = n := Nat.mod_eq_of_lt h
  simp [Nat.toDigits, Nat.toDigitsCore, h0, h1]

/-- The digits of a number from ten on: those of its tenth, then the last one. -/
theorem toDigits_large (n : Nat) (h : 10 ≤ n) :
    Nat.toDigits 10 n = Nat.toDigits 10 (n / 10) ++ [Nat.digitChar (n % 10)] := by
  have h0 : n / 10 ≠ 0 := by omega
  have hlt : n / 10 < n := Nat.div_lt_self (by omega) (by omega)
  have e : Nat.toDigits 10 n = Nat.toDigitsCore 10 n (n / 10) [Nat.digitChar (n % 10)] := by
    simp [Nat.toDigits, Nat.toDigitsCore, h0]
  rw [e, toDigitsCore_append n, toDigitsCore_fuel n (n / 10 + 1) (n / 10) hlt (by omega)]
  rfl

/-- Reading the decimal digits of a number gives the number back. -/
theorem parseDigits_toDigits (n : Nat) : parseDigits (Nat.toDigits 10 n) 0 = some n := by
  induction n using Nat.strong_induction_on with
  | _ n ih =>
    by_cases h : n < 10
    · rw [toDigits_small n h]
      simp [parseDigits, digitValue_digitChar n h]
    · have hlt : n / 10 < n := Nat.div_lt_self (by omega) (by omega)
      rw [toDigits_large n (by omega), parseDigits_append_singleton, ih (n / 10) hlt]
      simp only [digitValue_digitChar (n % 10) (Nat.mod_lt n (by omega)), Option.map_some']
      congr 1
      omega

/-- The decimal digits of a number are not empty. -/
theorem toDigits_ne_nil (n : Nat) : Nat.toDigits 10 n ≠ [] := by
  by_cases h : n < 10
  · rw [toDigits_small n h]; simp
  · rw [toDigits_large n (by omega)]; simp

/-- Reading the decimal rendering of a number gives the number back. -/
theorem parseNumber_toDigits (n : Nat) : parseNumber (Nat.toDigits 10 n) = some n := by
  have h := parseDigits_toDigits n
  have hne := toDigits_ne_nil n
  unfold parseNumber
  cases hd : Nat.toDigits 10 n with
  | nil => exact absurd hd hne
  | cons x l => rw [hd] at h; exact h

/-- No separator occurs among the decimal digits of a number. -/
theorem toDigits_separator (n : Nat) :
    '.' ∉ Nat.toDigits 10 n ∧ '+' ∉ Nat.toDigits 10 n ∧ '-' ∉ Nat.toDigits 10 n := by
  have h := parseDigits_digit _ 0 n (parseDigits_toDigits n)
  obtain ⟨h1, h2, h3⟩ := digitValue_separator
  exact ⟨fun hc => h _ hc h1, fun hc => h _ hc h2, fun hc => h _ hc h3⟩

/-- Cutting at a separator that follows a text free of it. -/
theorem cut_append (sep : Char) (l1 l2 : List Char) (h : sep ∉ l1) :
    cut sep (l1 ++ sep :: l2) = (l1, some l2) := by
  induction l1 with
  | nil => simp [cut]
  | cons x l ih =>
    have hx : x ≠ sep := fun e => h (by simp [e])
    have hl : sep ∉ l := fun e => h (by simp [e])
    simp [cut, hx, ih hl]

/-- Cutting a text free of the separator. -/
theorem cut_not_mem (sep : Char) (l : List Char) (h : sep ∉ l) : cut sep l = (l, none) := by
  induction l with
  | nil => simp [cut]
  | cons x l ih =>
    have hx : x ≠ sep := fun e => h (by simp [e])
    have hl : sep ∉ l := fun e => h (by simp [e])
    simp [cut, hx, ih hl]

/-- The text before the cut is free of the separator. -/
theorem cut_fst_not_mem (sep : Char) (l : List Char) : sep ∉ (cut sep l).1 := by
  induction l with
  | nil => simp [cut]
  | cons x l ih =>
    simp only [cut]
    split_ifs with hx
    · simp
    · simp only [List.mem_cons, not_or]
      exact ⟨fun e => hx e.symm, ih⟩

/-- The text after the cut is made of characters of the text cut. -/
theorem cut_snd_mem (sep : Char) (l r : List Char) (h : (cut sep l).2 = some r) (c : Char)
    (hc : c ∈ r) : c ∈ l := by
  induction l with
  | nil => simp [cut] at h
  | cons x l ih =>
    simp only [cut] at h
    split_ifs at h with hx
    · simp only [Option.some.injEq] at h
      subst h
      exact List.mem_cons_of_mem _ hc
    · exact List.mem_cons_of_mem _ (ih h)

/-- The pre-release part of a parsed version holds no `+`. -/
theorem NewVersion_preRelease (text : String) (v : Version) (h : NewVersion text = .ok v) :
    '+' ∉ v.PreRelease.data := by
  unfold NewVersion at h
  split at h
  · cases h
  · split at h
    · cases h
    · rename_i third _
      simp only at h
      split at h
      · injection h with h
        subst h
        simp only
        intro hc
        cases hp : (cut '-' (cut '+' third).1).2 with
        | none => simp [hp] at hc
        | some pre =>
          simp only [hp, Option.getD_some] at hc
          exact cut_fst_not_mem '+' third (cut_snd_mem '-' _ pre hp '+' hc)
      · cases h

/-- The characters of the rendering of a version. -/
theorem String_data (v : Version) :
    v.String.data = Nat.toDigits 10 v.Major ++ '.' :: (Nat.toDigits 10 v.Minor ++ '.' ::
      ((Nat.toDigits 10 v.Patch
        ++ (if v.PreRelease = "" then [] else '-' :: v.PreRelease.data))
        ++ (if v.Metadata = "" then [] else '+' :: v.Metadata.data))) := by
  unfold Version.String
  by_cases hp : v.PreRelease = "" <;> by_cases hm : v.Metadata = "" <;>
    simp [hp, hm, Nat.repr, List.asString, String.data_append]

/-- Parsing the rendering of a version whose pre-release part holds no `+` gives
the version back. -/
theorem NewVersion_String (v : Version) (h : '+' ∉ v.PreRelease.data) :
    NewVersion v.String = .ok v := by
  obtain ⟨hM1, _, _⟩ := toDigits_separator v.Major
  obtain ⟨hm1, _, _⟩ := toDigits_separator v.Minor
  obtain ⟨_, hp2, hp3⟩ := toDigits_separator v.Patch
  have hpre : '+' ∉ Nat.toDigits 10 v.Patch
      ++ (if v.PreRelease = "" then [] else '-' :: v.PreRelease.data) := by
    by_cases hp : v.PreRelease = ""
    · simpa [hp] using hp2
    · simp only [hp, if_false, List.mem_append, List.mem_cons, not_or]
      exact ⟨hp2, by decide, h⟩
  have hcutPre : cut '-' (Nat.toDigits 10 v.Patch
      ++ (if v.PreRelease = "" then [] else '-' :: v.PreRelease.data))
      = (Nat.toDigits 10 v.Patch,
          if v.PreRelease = "" then none else some v.PreRelease.data) := by
    by_cases hp : v.PreRelease = ""
    · simp only [hp, if_true, List.append_nil]
      exact cut_not_mem '-' _ hp3
    · simp only [hp, if_false]
      exact cut_append '-' _ _ hp3
  have hcutMeta : cut '+' ((Nat.toDigits 10 v.Patch
      ++ (if v.PreRelease = "" then [] else '-' :: v.PreRelease.data))
      ++ (if v.Metadata = "" then [] else '+' :: v.Metadata.data))
      = (Nat.toDigits 10 v.Patch
          ++ (if v.PreRelease = "" then [] else '-' :: v.PreRelease.data),
          if v.Metadata = "" then none else some v.Metadata.data) := by
    by_cases hm : v.Metadata = ""
    · simp only [hm, if_true, List.append_nil]
      exact cut_not_mem '+' _ hpre
    · simp only [hm, if_false]
      exact cut_append '+' _ _ hpre
  unfold NewVersion
  rw [String_data, cut_append '.' _ _ hM1]
  simp only [cut_append '.' _ _ hm1, hcutMeta, hcutPre, parseNumber_toDigits]
  cases v with
  | mk M m p pre md =>
    simp only [Except.ok.injEq, Version.mk.injEq, true_and]
    constructor
    · by_cases hp : pre = ""
      · simp [hp]
      · simp [hp]
    · by_cases hm : md = ""
      · simp [hm]
      · simp [hm]

end semver

namespace semver

/-- A character with a digit value is the digit character of that value. -/
theorem digitChar_digitValue (c : Char) (d : Nat) (h : digitValue c = some d) :
    d < 10 ∧ Nat.digitChar d = c := by
  unfold digitValue at h
  have hp := List.find?_some h
  have hm := List.mem_of_find?_eq_some h
  constructor
  · simp only [List.mem_cons, List.mem_singleton, List.not_mem_nil, or_false] at hm
    omega
  · simpa using hp

/-- Printing the number read from digits without a leading zero gives the
digits back. -/
theorem toDigits_parseDigits (ds : List Char) : ∀ n : Nat, parseDigits ds 0 = some n →
    ds ≠ [] → (ds.length = 1 ∨ ds.head? ≠ some '0') → Nat.toDigits 10 n = ds := by
  induction ds using List.reverseRecOn with
  | nil => intro n _ hne; exact absurd rfl hne
  | append_singleton l c ih =>
    intro n hn _ hz
    rw [parseDigits_append_singleton] at hn
    cases hm : parseDigits l 0 with
    | none => simp [hm] at hn
    | some m =>
      cases hd : digitValue c with
      | none => simp [hm, hd] at hn
      | some d =>
        simp only [hm, hd, Option.map_some', Option.some.injEq] at hn
        obtain ⟨hlt, hchar⟩ := digitChar_digitValue c d hd
        by_cases hl : l = []
        · subst hl
          simp only [parseDigits, Option.some.injEq] at hm
          subst hm
          subst hn
          simp only [Nat.mul_zero, Nat.zero_add, List.nil_append]
          rw [toDigits_small d hlt, hchar]
        · have hlen : (l ++ [c]).length ≠ 1 := by
            have : 0 < l.length := List.length_pos.mpr hl
            simp only [List.length_append, List.length_singleton]
            omega
          have hhead : l.head? ≠ some '0' := by
            rcases hz with hz | hz
            · exact absurd hz hlen
            · rwa [List.head?_append_of_ne_nil l hl] at hz
          have hlm := ih m hm hl (Or.inr hhead)
          have hm0 : m ≠ 0 := by
            intro h0
            subst h0
            rw [toDigits_small 0 (by omega)] at hlm
            rw [← hlm] at hhead
            exact hhead (by decide)
          subst hn
          rw [toDigits_large (10 * m + d) (by omega)]
          have e1 : (10 * m + d) / 10 = m := by omega
          have e2 : (10 * m + d) % 10 = d := by omega
          rw [e1, e2, hlm, hchar]

/-- Printing the number read from a canonical numeric field gives the field back. -/
theorem toDigits_parseNumber (ds : List Char) (n : Nat) (h : parseNumber ds = some n)
    (hc : canonicalNumber ds = true) : Nat.toDigits 10 n = ds := by
  simp only [canonicalNumber, decide_eq_true_eq] at hc
  cases ds with
  | nil => exact absurd rfl hc.1
  | cons x l => exact toDigits_parseDigits (x :: l) n h hc.1 hc.2

/-- A text is its two parts around the cut. -/
theorem cut_eq (sep : Char) (l : List Char) :
    l = (cut sep l).1 ++ behind sep (cut sep l).2 := by
  induction l with
  | nil => simp [cut, behind]
  | cons x l ih =>
    simp only [cut]
    split_ifs with hx
    · simp [hx, behind]
    · simp only [List.cons_append, List.cons.injEq, true_and]
      exact ih

/-- The optional text after a cut, printed back behind its separator. -/
theorem suffix_eq (sep : Char) (o : Option (List Char)) (h : o ≠ some []) :
    (if String.mk (o.getD []) = "" then [] else sep :: (String.mk (o.getD [])).data)
      = behind sep o := by
  cases o with
  | none => simp [behind]
  | some r =>
    have hr : r ≠ [] := fun e => h (by rw [e])
    have hs : String.mk r ≠ "" := fun e => hr (congrArg String.data e)
    simp [hs, behind]

/-- Printing the version parsed from a canonical string gives the string back. -/
theorem String_NewVersion (text : String) (v : Version) (h : NewVersion text = .ok v)
    (hc : canonical text = true) : v.String = text := by
  apply String.ext
  rw [String_data]
  have e1 := cut_eq '.' text.data
  unfold NewVersion at h
  unfold canonical at hc
  cases h1 : cut '.' text.data with
  | mk major o1 =>
    rw [h1] at h hc e1
    cases o1 with
    | none => simp at h
    | some rest =>
      simp only at h hc e1
      have e2 := cut_eq '.' rest
      cases h2 : cut '.' rest with
      | mk minor o2 =>
        rw [h2] at h hc e2
        cases o2 with
        | none => simp at h
        | some third =>
          simp only at h hc e2
          have e3 := cut_eq '+' third
          have e4 := cut_eq '-' (cut '+' third).1
          simp only [Bool.and_eq_true, decide_eq_true_eq] at hc
          obtain ⟨⟨⟨⟨cM, cm⟩, cp⟩, hpre⟩, hmeta⟩ := hc
          cases pM : parseNumber major with
          | none => simp [pM] at h
          | some a =>
            cases pm : parseNumber minor with
            | none => simp [pM, pm] at h
            | some b =>
              cases pp : parseNumber (cut '-' (cut '+' third).1).1 with
              | none => simp [pM, pm, pp] at h
              | some c =>
                simp only [pM, pm, pp, Except.ok.injEq] at h
                subst h
                simp only
                rw [toDigits_parseNumber major a pM cM, toDigits_parseNumber minor b pm cm,
                  toDigits_parseNumber _ c pp cp, suffix_eq '-' _ hpre,
                  suffix_eq '+' _ hmeta, ← e4, ← e3, e1, e2]
                rfl

end semver

/-! ## The committed versions and the order seen through `compareVersion` -/

namespace rkt

/-- A comparison that returns a result has parsed its first string. -/
theorem compareVersion_parsed (L : Lib) (v1 v2 : String) (c : Int)
    (h : compareVersion L v1 v2 = .ok c) : ∃ v, L.NewVersion v1 = .ok v := by
  cases h1 : L.NewVersion v1 with
  | error e => simp [compareVersion, h1] at h
  | ok v => exact ⟨v, rfl⟩

/-- A run that returns nil has had an answer from both collaborators, has parsed
the three reported strings, and has stored these three versions and the systemd
version. -/
theorem checkVersion_nil_commit (L : Lib) (r : Runtime L) (a b c d s : String)
    (h : (checkVersion L r a b c d s).err = none) :
    ∃ sv info vb va vp, r.systemd = .ok sv ∧ r.apisvc = .ok info
      ∧ L.NewVersion info.RktVersion = .ok vb
      ∧ L.NewVersion info.AppcVersion = .ok va
      ∧ L.NewVersion info.ApiVersion = .ok vp
      ∧ (checkVersion L r a b c d s).runtime
        = { r with
            binVersion := ⟨some vb⟩
            appcVersion := ⟨some va⟩
            apiVersion := ⟨some vp⟩
            systemdVersion := sv } := by
  cases hs : r.systemd with
  | error e0 => simp [checkVersion, hs] at h
  | ok sv =>
    cases hc : L.systemdCompare sv s with
    | error e0 => simp [checkVersion, hs, hc] at h
    | ok c0 =>
      by_cases hneg : c0 < 0
      · simp [checkVersion, hs, hc, hneg] at h
      · cases hi : r.apisvc with
        | error e0 => simp [checkVersion, hs, hc, hi, hneg] at h
        | ok info =>
          cases h1 : compareVersion L info.RktVersion a with
          | error e1 => simp [checkVersion, hs, hc, hi, hneg, h1] at h
          | ok c1 =>
            by_cases hneg1 : c1 < 0
            · simp [checkVersion, hs, hc, hi, hneg, h1, hneg1] at h
            · cases h2 : compareVersion L info.RktVersion b with
              | error e2 => simp [checkVersion, hs, hc, hi, hneg, h1, hneg1, h2] at h
              | ok c2 =>
                cases h3 : compareVersion L info.AppcVersion c with
                | error e3 =>
                  simp [checkVersion, hs, hc, hi, hneg, h1, hneg1, h2, h3] at h
                | ok c3 =>
                  by_cases hneg3 : c3 < 0
                  · simp [checkVersion, hs, hc, hi, hneg, h1, hneg1, h2, h3, hneg3] at h
                  · cases h4 : compareVersion L info.ApiVersion d with
                    | error e4 =>
                      simp [checkVersion, hs, hc, hi, hneg, h1, hneg1, h2, h3, hneg3,
                        h4] at h
                    | ok c4 =>
                      by_cases hneg4 : c4 < 0
                      · simp [checkVersion, hs, hc, hi, hneg, h1, hneg1, h2, h3, hneg3,
                          h4, hneg4] at h
                      · obtain ⟨vb, hvb⟩ := compareVersion_parsed L _ _ c1 h1
                        obtain ⟨va, hva⟩ := compareVersion_parsed L _ _ c3 h3
                        obtain ⟨vp, hvp⟩ := compareVersion_parsed L _ _ c4 h4
                        refine ⟨sv, info, vb, va, vp, rfl, rfl, hvb, hva, hvp, ?_⟩
                        simp [checkVersion, hs, hc, hi, hneg, h1, hneg1, h2, h3, hneg3,
                          h4, hneg4, commit, hvb, hva, hvp, Except.toOption]

/-- C7 as stated fails: a binary version reported as "01.2.3" passes every
check, and the committed `binVersion` prints as "1.2.3". -/
theorem checkVersion_leading_zero :
    leadingZeroRuntime.apisvc = .ok ⟨"01.2.3", "1.2.4+git", "1.2.6-alpha"⟩
    ∧ (checkVersion goLib leadingZeroRuntime "1.2.3" "1.2.3" "1.2.4" "1.2.5" "99").err = none
    ∧ (checkVersion goLib leadingZeroRuntime "1.2.3" "1.2.3" "1.2.4" "1.2.5"
        "99").runtime.binVersion.String = some "1.2.3" := by
  decide

/-- C7, amended: when `checkVersion` returns nil, the committed `binVersion`,
`appcVersion` and `apiVersion` are the versions parsed from the three reported
strings, and each prints as the reported string whenever that string is in
canonical form. -/
theorem checkVersion_committed_strings (r : Runtime goLib)
    (minimumRktBinVersion recommendRktBinVersion minimumAppcVersion
      minimumRktApiVersion minimumSystemdVersion : String) (info : Info)
    (hi : r.apisvc = .ok info)
    (h : (checkVersion goLib r minimumRktBinVersion recommendRktBinVersion minimumAppcVersion
        minimumRktApiVersion minimumSystemdVersion).err = none) :
    ∃ vb va vp, semver.NewVersion info.RktVersion = .ok vb
      ∧ semver.NewVersion info.AppcVersion = .ok va
      ∧ semver.NewVersion info.ApiVersion = .ok vp
      ∧ (checkVersion goLib r minimumRktBinVersion recommendRktBinVersion minimumAppcVersion
        minimumRktApiVersion minimumSystemdVersion).runtime.binVersion.String = some vb.String
      ∧ (checkVersion goLib r minimumRktBinVersion recommendRktBinVersion minimumAppcVersion
        minimumRktApiVersion minimumSystemdVersion).runtime.appcVersion.String = some va.String
      ∧ (checkVersion goLib r minimumRktBinVersion recommendRktBinVersion minimumAppcVersion
        minimumRktApiVersion minimumSystemdVersion).runtime.apiVersion.String = some vp.String
      ∧ (semver.canonical info.RktVersion = true → vb.String = info.RktVersion)
      ∧ (semver.canonical info.AppcVersion = true → va.String = info.AppcVersion)
      ∧ (semver.canonical info.ApiVersion = true → vp.String = info.ApiVersion) := by
  obtain ⟨sv, info2, vb, va, vp, _, hi2, hvb, hva, hvp, hr⟩ :=
    checkVersion_nil_commit goLib r _ _ _ _ _ h
  rw [hi] at hi2
  injection hi2 with hi2
  subst hi2
  refine ⟨vb, va, vp, hvb, hva, hvp, ?_, ?_, ?_, ?_, ?_, ?_⟩
  · rw [hr]; rfl
  · rw [hr]; rfl
  · rw [hr]; rfl
  · exact fun hc => semver.String_NewVersion _ vb hvb hc
  · exact fun hc => semver.String_NewVersion _ va hva hc
  · exact fun hc => semver.String_NewVersion _ vp hvp hc

/-- C7 amended, at the first case of `TestCheckVersion`: the three reported
strings are canonical and the committed versions print as reported, which is
what the test asserts. -/
theorem checkVersion_committed_strings_witness :
    (∃ vb va vp, semver.NewVersion "1.2.3+git" = .ok vb
      ∧ semver.NewVersion "1.2.4+git" = .ok va
      ∧ semver.NewVersion "1.2.6-alpha" = .ok vp
      ∧ (checkVersion goLib testRuntime "1.2.3" "1.2.3" "1.2.4" "1.2.5"
          "99").runtime.binVersion.String = some vb.String
      ∧ (checkVersion goLib testRuntime "1.2.3" "1.2.3" "1.2.4" "1.2.5"
          "99").runtime.appcVersion.String = some va.String
      ∧ (checkVersion goLib testRuntime "1.2.3" "1.2.3" "1.2.4" "1.2.5"
          "99").runtime.apiVersion.String = some vp.String
      ∧ (semver.canonical "1.2.3+git" = true → vb.String = "1.2.3+git")
      ∧ (semver.canonical "1.2.4+git" = true → va.String = "1.2.4+git")
      ∧ (semver.canonical "1.2.6-alpha" = true → vp.String = "1.2.6-alpha"))
    ∧ semver.canonical "1.2.3+git" = true ∧ semver.canonical "1.2.4+git" = true
    ∧ semver.canonical "1.2.6-alpha" = true ∧ semver.canonical "01.2.3" = false
    ∧ (checkVersion goLib testRuntime "1.2.3" "1.2.3" "1.2.4" "1.2.5"
        "99").runtime.binVersion.String = some "1.2.3+git" :=
  ⟨checkVersion_committed_strings testRuntime "1.2.3" "1.2.3" "1.2.4" "1.2.5" "99"
      ⟨"1.2.3+git", "1.2.4+git", "1.2.6-alpha"⟩ rfl (by decide),
    by decide, by decide, by decide, by decide, by decide⟩

/-- C10: for two strings that parse, `compareVersion` on the swapped pair returns
the negated result; a string compares 0 with itself; and `rktVersion.Compare` of
a parsed version returns 0 against the string it was parsed from and against the
string it prints. -/
theorem compareVersion_antisymm (a b : String) (va vb : semver.Version)
    (ha : semver.NewVersion a = .ok va) (hb : semver.NewVersion b = .ok vb) :
    (∃ x, compareVersion goLib a b = .ok x ∧ compareVersion goLib b a = .ok (-x))
    ∧ compareVersion goLib a a = .ok 0
    ∧ rktVersion.Compare goLib va a = .ok 0
    ∧ rktVersion.Compare goLib va va.String = .ok 0 := by
  refine ⟨⟨semver.sign va vb, compareVersion_goLib a b va vb ha hb, ?_⟩, ?_, ?_, ?_⟩
  · rw [compareVersion_goLib b a vb va hb ha, semver.sign_antisymm vb va]
  · rw [compareVersion_goLib a a va va ha ha, semver.sign_self]
  · rw [rktVersion_Compare_goLib va a va ha, semver.sign_self]
  · rw [rktVersion_Compare_goLib va va.String va
      (semver.NewVersion_String va (semver.NewVersion_preRelease a va ha)),
      semver.sign_self]

/-- C10, at a pre-release and its release: -1 one way, 1 the other. -/
theorem compareVersion_antisymm_witness :
    ((∃ x, compareVersion goLib "1.2.6-alpha" "1.2.6" = .ok x
        ∧ compareVersion goLib "1.2.6" "1.2.6-alpha" = .ok (-x))
      ∧ compareVersion goLib "1.2.6-alpha" "1.2.6-alpha" = .ok 0
      ∧ rktVersion.Compare goLib ⟨1, 2, 6, "alpha", ""⟩ "1.2.6-alpha" = .ok 0
      ∧ rktVersion.Compare goLib ⟨1, 2, 6, "alpha", ""⟩
          (semver.Version.String ⟨1, 2, 6, "alpha", ""⟩) = .ok 0)
    ∧ compareVersion goLib "1.2.6-alpha" "1.2.6" = .ok (-1)
    ∧ compareVersion goLib "1.2.6" "1.2.6-alpha" = .ok 1 :=
  ⟨compareVersion_antisymm "1.2.6-alpha" "1.2.6" ⟨1, 2, 6, "alpha", ""⟩ ⟨1, 2, 6, "", ""⟩
      (by decide) (by decide),
    by decide, by decide⟩

end rkt

/-! ## The commit step and the prior state -/

namespace rkt

/-- C17: when `checkVersion` returns nil, that is, when it has reached the three
assignments that drop the error of `NewVersion`, each of the three calls returns
a version, and none of the committed `appcVersion`, `binVersion` and
`apiVersion` holds a nil pointer. -/
theorem checkVersion_commit_not_nil (L : Lib) (r : Runtime L)
    (minimumRktBinVersion recommendRktBinVersion minimumAppcVersion
      minimumRktApiVersion minimumSystemdVersion : String)
    (h : (checkVersion L r minimumRktBinVersion recommendRktBinVersion minimumAppcVersion
        minimumRktApiVersion minimumSystemdVersion).err = none) :
    ∃ info va vb vp, r.apisvc = .ok info
      ∧ L.NewVersion info.AppcVersion = .ok va
      ∧ L.NewVersion info.RktVersion = .ok vb
      ∧ L.NewVersion info.ApiVersion = .ok vp
      ∧ (checkVersion L r minimumRktBinVersion recommendRktBinVersion minimumAppcVersion
        minimumRktApiVersion minimumSystemdVersion).runtime.appcVersion.Version = some va
      ∧ (checkVersion L r minimumRktBinVersion recommendRktBinVersion minimumAppcVersion
        minimumRktApiVersion minimumSystemdVersion).runtime.binVersion.Version = some vb
      ∧ (checkVersion L r minimumRktBinVersion recommendRktBinVersion minimumAppcVersion
        minimumRktApiVersion minimumSystemdVersion).runtime.apiVersion.Version = some vp := by
  obtain ⟨sv, info, vb, va, vp, _, hi, hvb, hva, hvp, hr⟩ :=
    checkVersion_nil_commit L r _ _ _ _ _ h
  refine ⟨info, va, vb, vp, hi, hva, hvb, hvp, ?_, ?_, ?_⟩ <;> rw [hr]

/-- C17, at the first case of `TestCheckVersion`: the run returns nil and the
three committed versions are the parsed reported strings. -/
theorem checkVersion_commit_not_nil_witness :
    (checkVersion goLib testRuntime "1.2.3" "1.2.3" "1.2.4" "1.2.5" "99").err = none
    ∧ ∃ info va vb vp, testRuntime.apisvc = .ok info
      ∧ goLib.NewVersion info.AppcVersion = .ok va
      ∧ goLib.NewVersion info.RktVersion = .ok vb
      ∧ goLib.NewVersion info.ApiVersion = .ok vp
      ∧ (checkVersion goLib testRuntime "1.2.3" "1.2.3" "1.2.4" "1.2.5" "99").runtime.appcVersion.Version = some va
      ∧ (checkVersion goLib testRuntime "1.2.3" "1.2.3" "1.2.4" "1.2.5" "99").runtime.binVersion.Version = some vb
      ∧ (checkVersion goLib testRuntime "1.2.3" "1.2.3" "1.2.4" "1.2.5" "99").runtime.apiVersion.Version = some vp :=
  ⟨by decide,
    checkVersion_commit_not_nil goLib testRuntime "1.2.3" "1.2.3" "1.2.4" "1.2.5" "99"
      (by decide)⟩

/-- Two runs on collaborators that answer the same return the same error, cause
the same events and, when they return nil, commit the same four fields. -/
theorem checkVersion_prior_state (L : Lib) (r r2 : Runtime L) (a b c d s : String)
    (hs : r.systemd = r2.systemd) (ha : r.apisvc = r2.apisvc) :
    (checkVersion L r a b c d s).err = (checkVersion L r2 a b c d s).err
    ∧ (checkVersion L r a b c d s).events = (checkVersion L r2 a b c d s).events
    ∧ ((checkVersion L r a b c d s).err = none →
      (checkVersion L r a b c d s).runtime.binVersion
          = (checkVersion L r2 a b c d s).runtime.binVersion
        ∧ (checkVersion L r a b c d s).runtime.appcVersion
          = (checkVersion L r2 a b c d s).runtime.appcVersion
        ∧ (checkVersion L r a b c d s).runtime.apiVersion
          = (checkVersion L r2 a b c d s).runtime.apiVersion
        ∧ (checkVersion L r a b c d s).runtime.systemdVersion
          = (checkVersion L r2 a b c d s).runtime.systemdVersion) := by
  cases hs0 : r.systemd with
  | error e0 =>
    have hs2 := hs ▸ hs0
    simp [checkVersion, hs0, hs2]
  | ok sv =>
    have hs2 := hs ▸ hs0
    cases hc : L.systemdCompare sv s with
    | error e0 => simp [checkVersion, hs0, hs2, hc]
    | ok c0 =>
      by_cases hneg : c0 < 0
      · simp [checkVersion, hs0, hs2, hc, hneg]
      · cases hi : r.apisvc with
        | error e0 =>
          have hi2 := ha ▸ hi
          simp [checkVersion, hs0, hs2, hc, hi, hi2, hneg]
        | ok info =>
          have hi2 := ha ▸ hi
          cases h1 : compareVersion L info.RktVersion a with
          | error e1 => simp [checkVersion, hs0, hs2, hc, hi, hi2, hneg, h1]
          | ok c1 =>
            by_cases hneg1 : c1 < 0
            · simp [checkVersion, hs0, hs2, hc, hi, hi2, hneg, h1, hneg1]
            · cases h2 : compareVersion L info.RktVersion b with
              | error e2 => simp [checkVersion, hs0, hs2, hc, hi, hi2, hneg, h1, hneg1, h2]
              | ok c2 =>
                cases h3 : compareVersion L info.AppcVersion c with
                | error e3 =>
                  simp [checkVersion, hs0, hs2, hc, hi, hi2, hneg, h1, hneg1, h2, h3]
                | ok c3 =>
                  by_cases hneg3 : c3 < 0
                  · simp [checkVersion, hs0, hs2, hc, hi, hi2, hneg, h1, hneg1, h2, h3,
                      hneg3]
                  · cases h4 : compareVersion L info.ApiVersion d with
                    | error e4 =>
                      simp [checkVersion, hs0, hs2, hc, hi, hi2, hneg, h1, hneg1, h2, h3,
                        hneg3, h4]
                    | ok c4 =>
                      by_cases hneg4 : c4 < 0
                      · simp [checkVersion, hs0, hs2, hc, hi, hi2, hneg, h1, hneg1, h2, h3,
                          hneg3, h4, hneg4]
                      · simp [checkVersion, hs0, hs2, hc, hi, hi2, hneg, h1, hneg1, h2, h3,
                          hneg3, h4, hneg4, commit]

/-- A run leaves the two collaborators of the `Runtime` as they were. -/
theorem checkVersion_collaborators (L : Lib) (r : Runtime L) (a b c d s : String) :
    (checkVersion L r a b c d s).runtime.systemd = r.systemd
    ∧ (checkVersion L r a b c d s).runtime.apisvc = r.apisvc := by
  by_cases h : (checkVersion L r a b c d s).err = none
  · obtain ⟨sv, info, vb, va, vp, _, _, _, _, _, hr⟩ := checkVersion_nil_commit L r _ _ _ _ _ h
    rw [hr]
    exact ⟨rfl, rfl⟩
  · rw [checkVersion_error_runtime L r _ _ _ _ _ h]
    exact ⟨rfl, rfl⟩

/-- C18: the returned error and, on success, the four committed fields are the
same for two prior states with the same collaborator answers; a second run on
the state the first one left returns the same error and leaves the same state. -/
theorem checkVersion_idempotent (L : Lib) (r r2 : Runtime L)
    (minimumRktBinVersion recommendRktBinVersion minimumAppcVersion
      minimumRktApiVersion minimumSystemdVersion : String)
    (hs : r.systemd = r2.systemd) (ha : r.apisvc = r2.apisvc) :
    (checkVersion L r minimumRktBinVersion recommendRktBinVersion minimumAppcVersion
        minimumRktApiVersion minimumSystemdVersion).err = (checkVersion L r2 minimumRktBinVersion recommendRktBinVersion minimumAppcVersion
        minimumRktApiVersion minimumSystemdVersion).err
    ∧ ((checkVersion L r minimumRktBinVersion recommendRktBinVersion minimumAppcVersion
        minimumRktApiVersion minimumSystemdVersion).err = none →
      (checkVersion L r minimumRktBinVersion recommendRktBinVersion minimumAppcVersion
        minimumRktApiVersion minimumSystemdVersion).runtime.binVersion = (checkVersion L r2 minimumRktBinVersion recommendRktBinVersion minimumAppcVersion
        minimumRktApiVersion minimumSystemdVersion).runtime.binVersion
        ∧ (checkVersion L r minimumRktBinVersion recommendRktBinVersion minimumAppcVersion
        minimumRktApiVersion minimumSystemdVersion).runtime.appcVersion = (checkVersion L r2 minimumRktBinVersion recommendRktBinVersion minimumAppcVersion
        minimumRktApiVersion minimumSystemdVersion).runtime.appcVersion
        ∧ (checkVersion L r minimumRktBinVersion recommendRktBinVersion minimumAppcVersion
        minimumRktApiVersion minimumSystemdVersion).runtime.apiVersion = (checkVersion L r2 minimumRktBinVersion recommendRktBinVersion minimumAppcVersion
        minimumRktApiVersion minimumSystemdVersion).runtime.apiVersion
        ∧ (checkVersion L r minimumRktBinVersion recommendRktBinVersion minimumAppcVersion
        minimumRktApiVersion minimumSystemdVersion).runtime.systemdVersion = (checkVersion L r2 minimumRktBinVersion recommendRktBinVersion minimumAppcVersion
        minimumRktApiVersion minimumSystemdVersion).runtime.systemdVersion)
    ∧ (checkVersion L (checkVersion L r minimumRktBinVersion recommendRktBinVersion minimumAppcVersion
        minimumRktApiVersion minimumSystemdVersion).runtime
        minimumRktBinVersion recommendRktBinVersion minimumAppcVersion
        minimumRktApiVersion minimumSystemdVersion).err = (checkVersion L r minimumRktBinVersion recommendRktBinVersion minimumAppcVersion
        minimumRktApiVersion minimumSystemdVersion).err
    ∧ (checkVersion L (checkVersion L r minimumRktBinVersion recommendRktBinVersion minimumAppcVersion
        minimumRktApiVersion minimumSystemdVersion).runtime
        minimumRktBinVersion recommendRktBinVersion minimumAppcVersion
        minimumRktApiVersion minimumSystemdVersion).runtime = (checkVersion L r minimumRktBinVersion recommendRktBinVersion minimumAppcVersion
        minimumRktApiVersion minimumSystemdVersion).runtime := by
  obtain ⟨he, _, hf⟩ := checkVersion_prior_state L r r2 minimumRktBinVersion
    recommendRktBinVersion minimumAppcVersion minimumRktApiVersion minimumSystemdVersion hs ha
  obtain ⟨hcs, hca⟩ := checkVersion_collaborators L r minimumRktBinVersion
    recommendRktBinVersion minimumAppcVersion minimumRktApiVersion minimumSystemdVersion
  obtain ⟨he2, _, hf2⟩ := checkVersion_prior_state L (checkVersion L r minimumRktBinVersion recommendRktBinVersion minimumAppcVersion
        minimumRktApiVersion minimumSystemdVersion).runtime r minimumRktBinVersion
    recommendRktBinVersion minimumAppcVersion minimumRktApiVersion minimumSystemdVersion
    hcs hca
  refine ⟨he, hf, he2, ?_⟩
  by_cases h : (checkVersion L r minimumRktBinVersion recommendRktBinVersion minimumAppcVersion
        minimumRktApiVersion minimumSystemdVersion).err = none
  · obtain ⟨h1, h2, h3, h4⟩ := hf2 (he2.trans h)
    obtain ⟨hcs2, hca2⟩ := checkVersion_collaborators L (checkVersion L r minimumRktBinVersion recommendRktBinVersion minimumAppcVersion
        minimumRktApiVersion minimumSystemdVersion).runtime minimumRktBinVersion
      recommendRktBinVersion minimumAppcVersion minimumRktApiVersion minimumSystemdVersion
    cases hx : (checkVersion L (checkVersion L r minimumRktBinVersion recommendRktBinVersion minimumAppcVersion
        minimumRktApiVersion minimumSystemdVersion).runtime
        minimumRktBinVersion recommendRktBinVersion minimumAppcVersion
        minimumRktApiVersion minimumSystemdVersion).runtime with
    | mk x1 x2 x3 x4 x5 x6 =>
      cases hy : (checkVersion L r minimumRktBinVersion recommendRktBinVersion minimumAppcVersion
        minimumRktApiVersion minimumSystemdVersion).runtime with
      | mk y1 y2 y3 y4 y5 y6 =>
        rw [hx, hy] at h1 h2 h3 h4
        rw [hx] at hcs2 hca2
        rw [hy] at hcs2 hca2
        simp only at h1 h2 h3 h4 hcs2 hca2
        rw [h1, h2, h3, h4, hcs2, hca2]
  · have h2 : (checkVersion L (checkVersion L r minimumRktBinVersion recommendRktBinVersion minimumAppcVersion
        minimumRktApiVersion minimumSystemdVersion).runtime
        minimumRktBinVersion recommendRktBinVersion minimumAppcVersion
        minimumRktApiVersion minimumSystemdVersion).err ≠ none := fun e => h (he2 ▸ e)
    rw [checkVersion_error_runtime L _ _ _ _ _ _ h2]

/-- C18, at the first case of `TestCheckVersion` run on a state holding older
versions and on a fresh one: both return nil and commit the same four fields,
the older values are gone, and a second run changes nothing. -/
theorem checkVersion_idempotent_witness :
    ((checkVersion goLib staleRuntime "1.2.3" "1.2.3" "1.2.4" "1.2.5" "99").err
        = (checkVersion goLib testRuntime "1.2.3" "1.2.3" "1.2.4" "1.2.5" "99").err
      ∧ ((checkVersion goLib staleRuntime "1.2.3" "1.2.3" "1.2.4" "1.2.5" "99").err = none →
        (checkVersion goLib staleRuntime "1.2.3" "1.2.3" "1.2.4" "1.2.5" "99").runtime.binVersion
            = (checkVersion goLib testRuntime "1.2.3" "1.2.3" "1.2.4" "1.2.5" "99").runtime.binVersion
          ∧ (checkVersion goLib staleRuntime "1.2.3" "1.2.3" "1.2.4" "1.2.5" "99").runtime.appcVersion
            = (checkVersion goLib testRuntime "1.2.3" "1.2.3" "1.2.4" "1.2.5" "99").runtime.appcVersion
          ∧ (checkVersion goLib staleRuntime "1.2.3" "1.2.3" "1.2.4" "1.2.5" "99").runtime.apiVersion
            = (checkVersion goLib testRuntime "1.2.3" "1.2.3" "1.2.4" "1.2.5" "99").runtime.apiVersion
          ∧ (checkVersion goLib staleRuntime "1.2.3" "1.2.3" "1.2.4" "1.2.5" "99").runtime.systemdVersion
            = (checkVersion goLib testRuntime "1.2.3" "1.2.3" "1.2.4" "1.2.5" "99").runtime.systemdVersion)
      ∧ (checkVersion goLib (checkVersion goLib staleRuntime "1.2.3" "1.2.3" "1.2.4" "1.2.5" "99").runtime "1.2.3" "1.2.3" "1.2.4" "1.2.5" "99").err
        = (checkVersion goLib staleRuntime "1.2.3" "1.2.3" "1.2.4" "1.2.5" "99").err
      ∧ (checkVersion goLib (checkVersion goLib staleRuntime "1.2.3" "1.2.3" "1.2.4" "1.2.5" "99").runtime "1.2.3" "1.2.3" "1.2.4" "1.2.5" "99").runtime
        = (checkVersion goLib staleRuntime "1.2.3" "1.2.3" "1.2.4" "1.2.5" "99").runtime)
    ∧ (checkVersion goLib staleRuntime "1.2.3" "1.2.3" "1.2.4" "1.2.5" "99").err = none
    ∧ staleRuntime.binVersion = ⟨some ⟨0, 9, 0, "", ""⟩⟩
    ∧ (checkVersion goLib staleRuntime "1.2.3" "1.2.3" "1.2.4" "1.2.5" "99").runtime.binVersion
      = ⟨some ⟨1, 2, 3, "", "git"⟩⟩
    ∧ (checkVersion goLib staleRuntime "1.2.3" "1.2.3" "1.2.4" "1.2.5" "99").runtime.systemdVersion = 100 :=
  ⟨checkVersion_idempotent goLib staleRuntime testRuntime "1.2.3" "1.2.3" "1.2.4" "1.2.5" "99" rfl rfl,
    by decide, rfl, rfl, rfl⟩

end rkt

/-! ## Errors and results of `compareVersion` -/

namespace rkt

/-- C16: `compareVersion` returns an error exactly when one of the two strings
does not parse, the error being the one of `v1` when `v1` does not parse and the
one of `v2` otherwise; when both parse it returns -1, 0 or 1: -1 exactly when the
first version is less than the second, 1 exactly when it is not and the second
is less than the first, which for a `LessThan` that never holds both ways is
exactly when the second is less than the first, and 0 otherwise.
`rktVersion.Compare` returns an error exactly when `other` does not parse. -/
theorem compareVersion_result (L : Lib) (v1 v2 : String) :
    ((∃ e, compareVersion L v1 v2 = .error e) ↔
      ((∃ e, L.NewVersion v1 = .error e) ∨ (∃ e, L.NewVersion v2 = .error e)))
    ∧ (∀ e, L.NewVersion v1 = .error e → compareVersion L v1 v2 = .error e)
    ∧ (∀ a e, L.NewVersion v1 = .ok a → L.NewVersion v2 = .error e →
      compareVersion L v1 v2 = .error e)
    ∧ (∀ a b, L.NewVersion v1 = .ok a → L.NewVersion v2 = .ok b →
      ∃ c, compareVersion L v1 v2 = .ok c
        ∧ (c = -1 ∨ c = 0 ∨ c = 1)
        ∧ (c = -1 ↔ L.LessThan a b = true)
        ∧ (c = 1 ↔ (L.LessThan a b = false ∧ L.LessThan b a = true))
        ∧ (c = 0 ↔ (L.LessThan a b = false ∧ L.LessThan b a = false))
        ∧ ((L.LessThan a b = true → L.LessThan b a = false) →
          (c = 1 ↔ L.LessThan b a = true)))
    ∧ (∀ (r : L.Version) other e,
      rktVersion.Compare L r other = .error e ↔ L.NewVersion other = .error e) := by
  have first : ∀ e, L.NewVersion v1 = .error e → compareVersion L v1 v2 = .error e := by
    intro e h
    simp [compareVersion, h]
  have second : ∀ a e, L.NewVersion v1 = .ok a → L.NewVersion v2 = .error e →
      compareVersion L v1 v2 = .error e := by
    intro a e h1 h2
    simp [compareVersion, rktVersion.Compare, h1, h2]
  refine ⟨⟨?_, ?_⟩, first, second, ?_, ?_⟩
  · rintro ⟨e, h⟩
    rcases compareVersion_error L v1 v2 e h with h1 | h1
    · exact Or.inl ⟨e, h1⟩
    · exact Or.inr ⟨e, h1⟩
  · rintro (⟨e, h⟩ | ⟨e, h⟩)
    · exact ⟨e, first e h⟩
    · cases h1 : L.NewVersion v1 with
      | error e1 => exact ⟨e1, first e1 h1⟩
      | ok a => exact ⟨e, second a e h1 h⟩
  · intro a b h1 h2
    refine ⟨_, compareVersion_ok L v1 v2 a b h1 h2, ?_⟩
    cases hab : L.LessThan a b <;> cases hba : L.LessThan b a <;> simp
  · intro r other e
    cases h : L.NewVersion other with
    | error e1 => simp [rktVersion.Compare, h]
    | ok b =>
      simp only [rktVersion.Compare, h]
      constructor
      · intro hc
        split_ifs at hc
      · intro hc
        cases hc

/-- C16, with the library of the specification: a first string that does not
parse gives its error even when the second does not parse either, and for two
versions the result is 1 exactly when the second is less than the first. -/
theorem compareVersion_result_witness :
    compareVersion goLib "1.2" "bad" = .error (semver.parseError "1.2")
    ∧ compareVersion goLib "1.2.3" "bad" = .error (semver.parseError "bad")
    ∧ (∃ c, compareVersion goLib "1.10.0" "1.9.0" = .ok c
        ∧ (c = -1 ∨ c = 0 ∨ c = 1)
        ∧ (c = -1 ↔ goLib.LessThan ⟨1, 10, 0, "", ""⟩ ⟨1, 9, 0, "", ""⟩ = true)
        ∧ (c = 1 ↔ (goLib.LessThan ⟨1, 10, 0, "", ""⟩ ⟨1, 9, 0, "", ""⟩ = false
            ∧ goLib.LessThan ⟨1, 9, 0, "", ""⟩ ⟨1, 10, 0, "", ""⟩ = true))
        ∧ (c = 0 ↔ (goLib.LessThan ⟨1, 10, 0, "", ""⟩ ⟨1, 9, 0, "", ""⟩ = false
            ∧ goLib.LessThan ⟨1, 9, 0, "", ""⟩ ⟨1, 10, 0, "", ""⟩ = false))
        ∧ ((goLib.LessThan ⟨1, 10, 0, "", ""⟩ ⟨1, 9, 0, "", ""⟩ = true →
            goLib.LessThan ⟨1, 9, 0, "", ""⟩ ⟨1, 10, 0, "", ""⟩ = false) →
          (c = 1 ↔ goLib.LessThan ⟨1, 9, 0, "", ""⟩ ⟨1, 10, 0, "", ""⟩ = true)))
    ∧ compareVersion goLib "1.10.0" "1.9.0" = .ok 1 :=
  ⟨(compareVersion_result goLib "1.2" "bad").2.1 _ (by decide),
    (compareVersion_result goLib "1.2.3" "bad").2.2.1 ⟨1, 2, 3, "", ""⟩ _ (by decide)
      (by decide),
    (compareVersion_result goLib "1.10.0" "1.9.0").2.2.2.1 ⟨1, 10, 0, "", ""⟩
      ⟨1, 9, 0, "", ""⟩ (by decide) (by decide),
    by decide⟩

end rkt

/-! ## The numbers decide first, and what compares equal -/

namespace semver

/-- Two numbers compare 0 exactly when they are equal. -/
theorem compareNat_eq_zero (a b : Nat) : compareNat a b = 0 ↔ a = b := by
  unfold compareNat
  split_ifs with h1 h2
  · simp only [Int.reduceNeg, Int.neg_eq_zero, one_ne_zero, false_iff]
    omega
  · simp only [one_ne_zero, false_iff]
    omega
  · simp only [true_iff]
    omega

/-- The three outcomes of comparing two numbers. -/
theorem compareNat_cases (a b : Nat) :
    (a < b ∧ compareNat a b = -1) ∨ (a = b ∧ compareNat a b = 0)
      ∨ (b < a ∧ compareNat a b = 1) := by
  unfold compareNat
  split_ifs with h1 h2
  · exact Or.inl ⟨h1, rfl⟩
  · exact Or.inr (Or.inr ⟨h2, rfl⟩)
  · exact Or.inr (Or.inl ⟨by omega, rfl⟩)

/-- The comparison of the numbers of two versions: -1 when the first triple is
the smaller one in the lexicographic order, 0 exactly when the triples are equal. -/
theorem recursiveCompare_Slice (a b : Version) :
    ((a.Major < b.Major ∨ (a.Major = b.Major ∧ (a.Minor < b.Minor
        ∨ (a.Minor = b.Minor ∧ a.Patch < b.Patch)))) →
      recursiveCompare a.Slice b.Slice = -1)
    ∧ (recursiveCompare a.Slice b.Slice = 0 ↔
      (a.Major = b.Major ∧ a.Minor = b.Minor ∧ a.Patch = b.Patch)) := by
  simp only [Version.Slice, recursiveCompare]
  rcases compareNat_cases a.Major b.Major with ⟨h1, e1⟩ | ⟨h1, e1⟩ | ⟨h1, e1⟩ <;>
    rcases compareNat_cases a.Minor b.Minor with ⟨h2, e2⟩ | ⟨h2, e2⟩ | ⟨h2, e2⟩ <;>
    rcases compareNat_cases a.Patch b.Patch with ⟨h3, e3⟩ | ⟨h3, e3⟩ | ⟨h3, e3⟩ <;>
    simp [e1, e2, e3] <;> omega

/-- Characters with the same code are the same character. -/
theorem char_eq_of_toNat (a b : Char) (h : a.toNat = b.toNat) : a = b := by
  apply Char.ext
  cases a
  cases b
  simp [Char.toNat] at h
  simp
  exact UInt32.ext (by omega)

/-- Two texts that compare 0 are the same text. -/
theorem compareText_eq_zero : ∀ a b : List Char, compareText a b = 0 → a = b
  | [], [], _ => rfl
  | [], _ :: _, h => by simp [compareText] at h
  | _ :: _, [], h => by simp [compareText] at h
  | x :: a, y :: b, h => by
    simp only [compareText] at h
    split_ifs at h with h1 h2
    · exact absurd h (by decide)
    · have hxy : x = y := char_eq_of_toNat x y (by omega)
      rw [hxy, compareText_eq_zero a b h]

/-- Two fields that compare 0 are the same field. -/
theorem compareField_eq_zero (a b : List Char) (h : compareField a b = 0) : a = b := by
  unfold compareField at h
  cases ha : atoi a with
  | none =>
    rw [ha] at h
    cases hb : atoi b <;> rw [hb] at h <;> exact compareText_eq_zero a b h
  | some x =>
    rw [ha] at h
    cases hb : atoi b with
    | none => rw [hb] at h; exact compareText_eq_zero a b h
    | some y =>
      rw [hb] at h
      simp only [] at h
      split_ifs at h with h0
      · exact absurd h h0
      · exact compareText_eq_zero a b h

/-- Neither of two sequences of fields comes out lower than the other exactly
when one of them is the beginning of the other. -/
theorem recursivePreReleaseCompare_prefix : ∀ a b : List (List Char),
    (recursivePreReleaseCompare a b ≠ -1 ∧ recursivePreReleaseCompare b a ≠ -1) ↔
      (a <+: b ∨ b <+: a)
  | [], [] => by simp [recursivePreReleaseCompare]
  | [], _ :: _ => by simp [recursivePreReleaseCompare]
  | _ :: _, [] => by simp [recursivePreReleaseCompare]
  | x :: a, y :: b => by
    have ih := recursivePreReleaseCompare_prefix a b
    have hanti := compareField_antisymm x y
    have hr := compareField_range x y
    by_cases h0 : compareField x y = 0
    · have hxy := compareField_eq_zero x y h0
      subst hxy
      simp only [recursivePreReleaseCompare, h0, ne_eq, not_true_eq_false, if_false,
        List.prefix_cons_inj]
      exact ih
    · have h1 : compareField y x ≠ 0 := by omega
      simp only [recursivePreReleaseCompare, ne_eq, h0, not_false_eq_true, if_true, h1,
        List.cons_prefix_cons]
      constructor
      · intro h
        exfalso
        omega
      · rintro (⟨e, _⟩ | ⟨e, _⟩)
        · exact absurd (e ▸ compareField_self x) h0
        · exact absurd (e ▸ compareField_self y) h1

/-- The pre-release parts of two versions give 0 exactly when both are empty or
neither is, and the fields of one are the leading fields of the other. -/
theorem preSign_eq_zero (a b : Version) :
    preSign a b = 0 ↔ ((a.PreRelease = "" ↔ b.PreRelease = "")
      ∧ (fields a.PreRelease.data <+: fields b.PreRelease.data
        ∨ fields b.PreRelease.data <+: fields a.PreRelease.data)) := by
  have hp := recursivePreReleaseCompare_prefix (fields a.PreRelease.data)
    (fields b.PreRelease.data)
  have hzero : preSign a b = 0 ↔
      (preReleaseCompare a b ≠ -1 ∧ preReleaseCompare b a ≠ -1) := by
    unfold preSign
    split_ifs with p q
    · simp [p]
    · simp [q]
    · simp [p, q]
  rw [hzero]
  unfold preReleaseCompare
  by_cases ha : a.PreRelease = "" <;> by_cases hb : b.PreRelease = ""
  · simp only [ha, hb, ne_eq, not_true_eq_false, and_false, if_false, true_iff, true_and]
      at hp ⊢
    exact hp
  · simp [ha, hb]
  · simp [ha, hb]
  · simp only [ha, hb, ne_eq, false_and, and_false, if_false, iff_self, true_and]
    exact hp

/-- Two versions get 0 exactly when they have the same numbers, both or neither
has a pre-release part, and the fields of one pre-release part are the leading
fields of the other. -/
theorem sign_eq_zero (a b : Version) :
    sign a b = 0 ↔ (a.Major = b.Major ∧ a.Minor = b.Minor ∧ a.Patch = b.Patch
      ∧ (a.PreRelease = "" ↔ b.PreRelease = "")
      ∧ (fields a.PreRelease.data <+: fields b.PreRelease.data
        ∨ fields b.PreRelease.data <+: fields a.PreRelease.data)) := by
  have hn := (recursiveCompare_Slice a b).2
  rw [sign_lex, ← preSign_eq_zero]
  split_ifs with h0
  · constructor
    · intro h
      exact absurd h h0
    · intro h
      exact absurd (hn.mpr ⟨h.1, h.2.1, h.2.2.1⟩) h0
  · have h1 := hn.mp (not_not.mp h0)
    constructor
    · intro h
      exact ⟨h1.1, h1.2.1, h1.2.2, h⟩
    · intro h
      exact h.2.2.2

/-- Two versions with the same numbers and the same pre-release part get 0. -/
theorem sign_same (a b : Version) (h : a.Major = b.Major ∧ a.Minor = b.Minor
    ∧ a.Patch = b.Patch ∧ a.PreRelease = b.PreRelease) : sign a b = 0 := by
  rw [sign_eq_zero]
  refine ⟨h.1, h.2.1, h.2.2.1, by rw [h.2.2.2], Or.inl ?_⟩
  rw [h.2.2.2]

end semver

namespace rkt

/-- C13: for two strings that parse, `compareVersion` returns -1 when the triple
(major, minor, patch) of the first is the smaller one in the lexicographic order
of triples of numbers, and 1 when it is the larger one, whatever the pre-release
and build-metadata parts are; so it returns one of the two whenever the triples
differ. -/
theorem compareVersion_numbers (a b : String) (va vb : semver.Version)
    (ha : semver.NewVersion a = .ok va) (hb : semver.NewVersion b = .ok vb) :
    ((va.Major < vb.Major ∨ (va.Major = vb.Major ∧ (va.Minor < vb.Minor
        ∨ (va.Minor = vb.Minor ∧ va.Patch < vb.Patch)))) →
      compareVersion goLib a b = .ok (-1))
    ∧ ((vb.Major < va.Major ∨ (vb.Major = va.Major ∧ (vb.Minor < va.Minor
        ∨ (vb.Minor = va.Minor ∧ vb.Patch < va.Patch)))) →
      compareVersion goLib a b = .ok 1)
    ∧ ((va.Major, va.Minor, va.Patch) ≠ (vb.Major, vb.Minor, vb.Patch) →
      (compareVersion goLib a b = .ok (-1) ∨ compareVersion goLib a b = .ok 1)) := by
  rw [compareVersion_goLib a b va vb ha hb]
  have less : ∀ x y : semver.Version,
      (x.Major < y.Major ∨ (x.Major = y.Major ∧ (x.Minor < y.Minor
        ∨ (x.Minor = y.Minor ∧ x.Patch < y.Patch)))) → semver.sign x y = -1 := by
    intro x y h
    have h1 := (semver.recursiveCompare_Slice x y).1 h
    rw [semver.sign_lex, h1]
    rfl
  have more : (vb.Major < va.Major ∨ (vb.Major = va.Major ∧ (vb.Minor < va.Minor
        ∨ (vb.Minor = va.Minor ∧ vb.Patch < va.Patch)))) → semver.sign va vb = 1 := by
    intro h
    rw [semver.sign_antisymm va vb, less vb va h]
    rfl
  refine ⟨fun h => by rw [less va vb h], fun h => by rw [more h], ?_⟩
  intro hne
  have hcases : (va.Major < vb.Major ∨ (va.Major = vb.Major ∧ (va.Minor < vb.Minor
        ∨ (va.Minor = vb.Minor ∧ va.Patch < vb.Patch))))
      ∨ (vb.Major < va.Major ∨ (vb.Major = va.Major ∧ (vb.Minor < va.Minor
        ∨ (vb.Minor = va.Minor ∧ vb.Patch < va.Patch)))) := by
    by_contra hcon
    apply hne
    have e1 : va.Major = vb.Major := by omega
    have e2 : va.Minor = vb.Minor := by omega
    have e3 : va.Patch = vb.Patch := by omega
    rw [e1, e2, e3]
  rcases hcases with h | h
  · exact Or.inl (by rw [less va vb h])
  · exact Or.inr (by rw [more h])

/-- C13, at the example of the claim and at a pair with pre-release and build
parts: the minor numbers 10 and 9 are compared as numbers. -/
theorem compareVersion_numbers_witness :
    compareVersion goLib "1.10.0" "1.9.0" = .ok 1
    ∧ compareVersion goLib "1.9.0+build" "1.10.0-alpha" = .ok (-1) :=
  ⟨(compareVersion_numbers "1.10.0" "1.9.0" ⟨1, 10, 0, "", ""⟩ ⟨1, 9, 0, "", ""⟩
      (by decide) (by decide)).2.1 (by decide),
    (compareVersion_numbers "1.9.0+build" "1.10.0-alpha" ⟨1, 9, 0, "", "build"⟩
      ⟨1, 10, 0, "alpha", ""⟩ (by decide) (by decide)).1 (by decide)⟩

/-- C14 as stated fails: "1.0.0-a" and "1.0.0-a.b" parse to versions with
different pre-release identifiers, and `compareVersion` returns 0 for them both
ways. -/
theorem compareVersion_zero_distinct_identifiers :
    semver.NewVersion "1.0.0-a" = .ok ⟨1, 0, 0, "a", ""⟩
    ∧ semver.NewVersion "1.0.0-a.b" = .ok ⟨1, 0, 0, "a.b", ""⟩
    ∧ compareVersion goLib "1.0.0-a" "1.0.0-a.b" = .ok 0
    ∧ compareVersion goLib "1.0.0-a.b" "1.0.0-a" = .ok 0 := by
  decide

/-- C14, amended: for two strings that parse, `compareVersion` returns 0
whenever the two versions have the same major, minor and patch numbers and the
same pre-release identifiers; and it returns 0 exactly when they have the same
three numbers, both or neither has a pre-release identifier, and the fields of
one identifier are the leading fields of the other. -/
theorem compareVersion_zero_iff (a b : String) (va vb : semver.Version)
    (ha : semver.NewVersion a = .ok va) (hb : semver.NewVersion b = .ok vb) :
    ((va.Major = vb.Major ∧ va.Minor = vb.Minor ∧ va.Patch = vb.Patch
        ∧ va.PreRelease = vb.PreRelease) → compareVersion goLib a b = .ok 0)
    ∧ (compareVersion goLib a b = .ok 0 ↔
      (va.Major = vb.Major ∧ va.Minor = vb.Minor ∧ va.Patch = vb.Patch
        ∧ (va.PreRelease = "" ↔ vb.PreRelease = "")
        ∧ (semver.fields va.PreRelease.data <+: semver.fields vb.PreRelease.data
          ∨ semver.fields vb.PreRelease.data <+: semver.fields va.PreRelease.data))) := by
  rw [compareVersion_goLib a b va vb ha hb, ← semver.sign_eq_zero va vb]
  refine ⟨fun h => by rw [semver.sign_same va vb h], ?_⟩
  constructor
  · intro h
    injection h
  · intro h
    rw [h]

/-- C14 amended, at two strings that differ in build metadata only and at the
two of the counterexample, the fields of the first leading those of the second;
two strings whose second fields differ get -1. -/
theorem compareVersion_zero_iff_witness :
    compareVersion goLib "1.2.3-rc.1+a" "1.2.3-rc.1+b" = .ok 0
    ∧ compareVersion goLib "1.0.0-a" "1.0.0-a.b" = .ok 0
    ∧ compareVersion goLib "1.2.3-rc.1" "1.2.3-rc.2" = .ok (-1) :=
  ⟨(compareVersion_zero_iff "1.2.3-rc.1+a" "1.2.3-rc.1+b" ⟨1, 2, 3, "rc.1", "a"⟩
      ⟨1, 2, 3, "rc.1", "b"⟩ (by decide) (by decide)).1 ⟨rfl, rfl, rfl, rfl⟩,
    (compareVersion_zero_iff "1.0.0-a" "1.0.0-a.b" ⟨1, 0, 0, "a", ""⟩
      ⟨1, 0, 0, "a.b", ""⟩ (by decide) (by decide)).2.mpr
      ⟨rfl, rfl, rfl, by decide, Or.inl (by decide)⟩,
    by decide⟩

end rkt
/-! ## Where the order is transitive -/

namespace semver

/-- Comparing first by one transitive comparison and, where it gives 0, by a
second one is transitive. -/
theorem Transitive3_lex (x1 x2 x3 y1 y2 y3 : Int) (hx : Transitive3 x1 x2 x3)
    (hy : Transitive3 y1 y2 y3) :
    Transitive3 (if x1 ≠ 0 then x1 else y1) (if x2 ≠ 0 then x2 else y2)
      (if x3 ≠ 0 then x3 else y3) := by
  unfold Transitive3 at *
  split_ifs <;> (refine ⟨?_, ?_, ?_, ?_⟩ <;> intros <;> omega)

/-- The comparison of numbers is transitive. -/
theorem compareNat_trans (a b c : Nat) :
    Transitive3 (compareNat a b) (compareNat b c) (compareNat a c) := by
  unfold Transitive3 compareNat
  split_ifs <;> (refine ⟨?_, ?_, ?_, ?_⟩ <;> intros <;> first | omega | contradiction)

/-- The comparison of texts is transitive. -/
theorem compareText_trans : ∀ a b c : List Char,
    Transitive3 (compareText a b) (compareText b c) (compareText a c)
  | [], [], [] => by simp [compareText, Transitive3]
  | [], [], _ :: _ => by simp [compareText, Transitive3]
  | [], _ :: _, [] => by simp [compareText, Transitive3]
  | [], y :: b, z :: c => by
    simp only [compareText, Transitive3]
    split_ifs <;> (refine ⟨?_, ?_, ?_, ?_⟩ <;> intros <;> first | omega | contradiction)
  | _ :: _, [], [] => by simp [compareText, Transitive3]
  | _ :: _, [], _ :: _ => by simp [compareText, Transitive3]
  | x :: a, y :: b, [] => by
    simp only [compareText, Transitive3]
    split_ifs <;> (refine ⟨?_, ?_, ?_, ?_⟩ <;> intros <;> omega)
  | x :: a, y :: b, z :: c => by
    have ih := compareText_trans a b c
    simp only [compareText]
    unfold Transitive3 at *
    split_ifs <;> (refine ⟨?_, ?_, ?_, ?_⟩ <;> intros <;> first | omega | contradiction)

/-- The comparison of integers is transitive. -/
theorem compareInt_trans (a b c : Int) :
    Transitive3 (compareInt a b) (compareInt b c) (compareInt a c) := by
  unfold Transitive3 compareInt
  split_ifs <;> (refine ⟨?_, ?_, ?_, ?_⟩ <;> intros <;> first | omega | contradiction)

/-- The comparison of fields is transitive on three fields that are all numeric
or all not numeric. -/
theorem compareField_trans (a b c : List Char) (h : sameKind a b c = true) :
    Transitive3 (compareField a b) (compareField b c) (compareField a c) := by
  have ht := compareText_trans a b c
  unfold sameKind at h
  unfold compareField
  cases ha : atoi a with
  | none =>
    cases hb : atoi b with
    | none =>
      cases hc : atoi c with
      | none => exact ht
      | some z => simp [ha, hb, hc] at h
    | some y => simp [ha, hb] at h
  | some x =>
    cases hb : atoi b with
    | none => simp [ha, hb] at h
    | some y =>
      cases hc : atoi c with
      | none => simp [ha, hb, hc] at h
      | some z => exact Transitive3_lex _ _ _ _ _ _ (compareInt_trans x y z) ht

/-- Three uniform sequences of fields are equally long. -/
theorem uniform_length : ∀ a b c : List (List Char), uniform a b c = true →
    a.length = b.length ∧ b.length = c.length
  | [], [], [], _ => by simp
  | [], [], _ :: _, h => by simp [uniform] at h
  | [], _ :: _, _, h => by simp [uniform] at h
  | _ :: _, [], _, h => by simp [uniform] at h
  | _ :: _, _ :: _, [], h => by simp [uniform] at h
  | x :: a, y :: b, z :: c, h => by
    simp only [uniform, Bool.and_eq_true] at h
    have ih := uniform_length a b c h.2
    simp [ih.1, ih.2]

/-- On two equally long sequences of fields, swapping them negates the
result. -/
theorem recursivePreReleaseCompare_antisymm : ∀ a b : List (List Char),
    a.length = b.length →
    recursivePreReleaseCompare b a = -recursivePreReleaseCompare a b
  | [], [], _ => by simp [recursivePreReleaseCompare]
  | [], _ :: _, h => by simp at h
  | _ :: _, [], h => by simp at h
  | x :: a, y :: b, h => by
    have ih := recursivePreReleaseCompare_antisymm a b (by simpa using h)
    have hf := compareField_antisymm y x
    simp only [recursivePreReleaseCompare]
    rw [hf, ih]
    split_ifs <;> omega

/-- The comparison of sequences of fields is transitive on three uniform
sequences. -/
theorem recursivePreReleaseCompare_trans : ∀ a b c : List (List Char),
    uniform a b c = true →
    Transitive3 (recursivePreReleaseCompare a b) (recursivePreReleaseCompare b c)
      (recursivePreReleaseCompare a c)
  | [], [], [], _ => by simp [recursivePreReleaseCompare, Transitive3]
  | [], [], _ :: _, h => by simp [uniform] at h
  | [], _ :: _, _, h => by simp [uniform] at h
  | _ :: _, [], _, h => by simp [uniform] at h
  | _ :: _, _ :: _, [], h => by simp [uniform] at h
  | x :: a, y :: b, z :: c, h => by
    simp only [uniform, Bool.and_eq_true] at h
    simp only [recursivePreReleaseCompare]
    exact Transitive3_lex _ _ _ _ _ _ (compareField_trans x y z h.1)
      (recursivePreReleaseCompare_trans a b c h.2)

/-- A version without a pre-release part is above one with one. -/
theorem preSign_release_left (a b : Version) (ha : a.PreRelease = "")
    (hb : b.PreRelease ≠ "") : preSign a b = 1 := by
  simp [preSign, preReleaseCompare, ha, hb]

/-- A version with a pre-release part is below one without one. -/
theorem preSign_release_right (a b : Version) (ha : a.PreRelease ≠ "")
    (hb : b.PreRelease = "") : preSign a b = -1 := by
  simp [preSign, preReleaseCompare, ha, hb]

/-- Two versions without a pre-release part get 0. -/
theorem preSign_releases (a b : Version) (ha : a.PreRelease = "")
    (hb : b.PreRelease = "") : preSign a b = 0 := by
  rw [preSign_eq_zero, ha, hb]
  exact ⟨Iff.rfl, Or.inl (List.prefix_refl _)⟩

/-- Two versions with pre-release parts of equally many fields get what the
comparison of the fields gives. -/
theorem preSign_fields (a b : Version) (ha : a.PreRelease ≠ "") (hb : b.PreRelease ≠ "")
    (hl : (fields a.PreRelease.data).length = (fields b.PreRelease.data).length) :
    preSign a b
      = recursivePreReleaseCompare (fields a.PreRelease.data) (fields b.PreRelease.data) := by
  have hr := recursivePreReleaseCompare_range (fields a.PreRelease.data)
    (fields b.PreRelease.data)
  have hs := recursivePreReleaseCompare_antisymm _ _ hl
  simp only [preSign, preReleaseCompare, ha, hb, ne_eq, not_true_eq_false,
    not_false_eq_true, and_true, and_false, false_and, if_false]
  rw [hs]
  split_ifs <;> omega

/-- The comparison of the pre-release parts is transitive on three versions of
which one has no pre-release part or whose fields are uniform. -/
theorem preSign_trans (a b c : Version)
    (h : a.PreRelease = "" ∨ b.PreRelease = "" ∨ c.PreRelease = ""
      ∨ uniform (fields a.PreRelease.data) (fields b.PreRelease.data)
        (fields c.PreRelease.data) = true) :
    Transitive3 (preSign a b) (preSign b c) (preSign a c) := by
  by_cases ha : a.PreRelease = "" <;> by_cases hb : b.PreRelease = "" <;>
    by_cases hc : c.PreRelease = ""
  · rw [preSign_releases a b ha hb, preSign_releases b c hb hc, preSign_releases a c ha hc]
    simp [Transitive3]
  · rw [preSign_releases a b ha hb, preSign_release_left b c hb hc,
      preSign_release_left a c ha hc]
    simp [Transitive3]
  · rw [preSign_release_left a b ha hb, preSign_release_right b c hb hc,
      preSign_releases a c ha hc]
    simp [Transitive3]
  · rw [preSign_release_left a b ha hb, preSign_release_left a c ha hc]
    unfold Transitive3
    refine ⟨?_, ?_, ?_, ?_⟩ <;> intros <;> omega
  · rw [preSign_release_right a b ha hb, preSign_releases b c hb hc,
      preSign_release_right a c ha hc]
    simp [Transitive3]
  · rw [preSign_release_right a b ha hb, preSign_release_left b c hb hc]
    unfold Transitive3
    refine ⟨?_, ?_, ?_, ?_⟩ <;> intros <;> omega
  · rw [preSign_release_right b c hb hc, preSign_release_right a c ha hc]
    unfold Transitive3
    refine ⟨?_, ?_, ?_, ?_⟩ <;> intros <;> omega
  · have hu : uniform (fields a.PreRelease.data) (fields b.PreRelease.data)
        (fields c.PreRelease.data) = true := by
      rcases h with h | h | h | h
      · exact absurd h ha
      · exact absurd h hb
      · exact absurd h hc
      · exact h
    have hl := uniform_length _ _ _ hu
    rw [preSign_fields a b ha hb hl.1, preSign_fields b c hb hc hl.2,
      preSign_fields a c ha hc (hl.1.trans hl.2)]
    exact recursivePreReleaseCompare_trans _ _ _ hu

/-- The comparison of the numbers of versions is transitive. -/
theorem recursiveCompare_trans (a b c : Version) :
    Transitive3 (recursiveCompare a.Slice b.Slice) (recursiveCompare b.Slice c.Slice)
      (recursiveCompare a.Slice c.Slice) := by
  simp only [Version.Slice, recursiveCompare]
  refine Transitive3_lex _ _ _ _ _ _ (compareNat_trans _ _ _)
    (Transitive3_lex _ _ _ _ _ _ (compareNat_trans _ _ _) ?_)
  have h := Transitive3_lex _ _ _ 0 0 0 (compareNat_trans a.Patch b.Patch c.Patch)
    (by simp [Transitive3])
  exact h

/-- The order of versions is transitive on three versions of which one has
no pre-release part or whose fields are uniform. -/
theorem sign_trans (a b c : Version)
    (h : a.PreRelease = "" ∨ b.PreRelease = "" ∨ c.PreRelease = ""
      ∨ uniform (fields a.PreRelease.data) (fields b.PreRelease.data)
        (fields c.PreRelease.data) = true) :
    Transitive3 (sign a b) (sign b c) (sign a c) := by
  rw [sign_lex a b, sign_lex b c, sign_lex a c]
  exact Transitive3_lex _ _ _ _ _ _ (recursiveCompare_trans a b c) (preSign_trans a b c h)

end semver

namespace rkt

/-- C15 as stated fails: the comparison is not transitive on strings that
parse. "1.0.0-9" is below "1.0.0-10" and "1.0.0-10" below "1.0.0-1a", yet
"1.0.0-9" is above "1.0.0-1a"; and "1.0.0-a.b" gets 0 against "1.0.0-a" and
"1.0.0-a" gets 0 against "1.0.0-a.c", yet "1.0.0-a.b" is below "1.0.0-a.c". -/
theorem compareVersion_not_transitive :
    semver.NewVersion "1.0.0-9" = .ok ⟨1, 0, 0, "9", ""⟩
    ∧ semver.NewVersion "1.0.0-10" = .ok ⟨1, 0, 0, "10", ""⟩
    ∧ semver.NewVersion "1.0.0-1a" = .ok ⟨1, 0, 0, "1a", ""⟩
    ∧ compareVersion goLib "1.0.0-9" "1.0.0-10" = .ok (-1)
    ∧ compareVersion goLib "1.0.0-10" "1.0.0-1a" = .ok (-1)
    ∧ compareVersion goLib "1.0.0-9" "1.0.0-1a" = .ok 1
    ∧ compareVersion goLib "1.0.0-a.b" "1.0.0-a" = .ok 0
    ∧ compareVersion goLib "1.0.0-a" "1.0.0-a.c" = .ok 0
    ∧ compareVersion goLib "1.0.0-a.b" "1.0.0-a.c" = .ok (-1) := by
  decide

/-- C15, amended: on strings that parse the comparison is total: any two of
them get a result of -1, 0 or 1, the swapped pair the negated one. It is
transitive on three of them of which one has no pre-release identifier, or
whose identifiers have equally many fields with, at each position, three
numeric fields or three fields that are not numeric: if the first is not above
the second and the second not above the third then the first is not above the
third, with 0 when both results are 0 and a negative result when one of the two
is negative. -/
theorem compareVersion_trans (a b c : String) (va vb vc : semver.Version)
    (ha : semver.NewVersion a = .ok va) (hb : semver.NewVersion b = .ok vb)
    (hc : semver.NewVersion c = .ok vc) :
    ∃ x y z, compareVersion goLib a b = .ok x ∧ compareVersion goLib b c = .ok y
      ∧ compareVersion goLib a c = .ok z
      ∧ (x = -1 ∨ x = 0 ∨ x = 1)
      ∧ compareVersion goLib b a = .ok (-x)
      ∧ ((va.PreRelease = "" ∨ vb.PreRelease = "" ∨ vc.PreRelease = ""
          ∨ semver.uniform (semver.fields va.PreRelease.data)
            (semver.fields vb.PreRelease.data) (semver.fields vc.PreRelease.data) = true) →
        (x ≤ 0 → y ≤ 0 → z ≤ 0)
        ∧ (x = 0 → y = 0 → z = 0)
        ∧ (x < 0 → y ≤ 0 → z < 0)
        ∧ (x ≤ 0 → y < 0 → z < 0)) := by
  refine ⟨semver.sign va vb, semver.sign vb vc, semver.sign va vc,
    compareVersion_goLib a b va vb ha hb, compareVersion_goLib b c vb vc hb hc,
    compareVersion_goLib a c va vc ha hc, semver.sign_range va vb, ?_, ?_⟩
  · rw [compareVersion_goLib b a vb va hb ha, semver.sign_antisymm vb va]
  · intro h
    obtain ⟨h1, h2, h3, h4⟩ := semver.sign_trans va vb vc h
    exact ⟨h1, h4, h2, h3⟩

/-- C15 amended, at three pre-releases of one version with a numeric second
field, and at a pre-release, a later pre-release and the release. -/
theorem compareVersion_trans_witness :
    (∃ x y z, compareVersion goLib "1.0.0-rc.9" "1.0.0-rc.10" = .ok x
      ∧ compareVersion goLib "1.0.0-rc.10" "1.0.0-rc.11" = .ok y
      ∧ compareVersion goLib "1.0.0-rc.9" "1.0.0-rc.11" = .ok z
      ∧ (x = -1 ∨ x = 0 ∨ x = 1)
      ∧ compareVersion goLib "1.0.0-rc.10" "1.0.0-rc.9" = .ok (-x)
      ∧ (x ≤ 0 → y ≤ 0 → z ≤ 0)
      ∧ (x = 0 → y = 0 → z = 0)
      ∧ (x < 0 → y ≤ 0 → z < 0)
      ∧ (x ≤ 0 → y < 0 → z < 0))
    ∧ compareVersion goLib "1.0.0-rc.9" "1.0.0-rc.10" = .ok (-1)
    ∧ compareVersion goLib "1.0.0-rc.10" "1.0.0-rc.11" = .ok (-1)
    ∧ compareVersion goLib "1.0.0-rc.9" "1.0.0-rc.11" = .ok (-1)
    ∧ compareVersion goLib "1.0.0-alpha" "1.0.0-beta.2" = .ok (-1)
    ∧ compareVersion goLib "1.0.0-beta.2" "1.0.0" = .ok (-1)
    ∧ compareVersion goLib "1.0.0-alpha" "1.0.0" = .ok (-1) := by
  refine ⟨?_, by decide, by decide, by decide, by decide, by decide, by decide⟩
  obtain ⟨x, y, z, h1, h2, h3, h4, h5, h6⟩ :=
    compareVersion_trans "1.0.0-rc.9" "1.0.0-rc.10" "1.0.0-rc.11" ⟨1, 0, 0, "rc.9", ""⟩
      ⟨1, 0, 0, "rc.10", ""⟩ ⟨1, 0, 0, "rc.11", ""⟩ (by decide) (by decide) (by decide)
  exact ⟨x, y, z, h1, h2, h3, h4, h5, h6 (Or.inr (Or.inr (Or.inr (by decide))))⟩

end rkt
/-! ## Build metadata and pre-releases -/

namespace semver

/-- Cutting behind a text free of the separator cuts what follows it. -/
theorem cut_append_left (sep : Char) (l1 l2 : List Char) (h : sep ∉ l1) :
    cut sep (l1 ++ l2) = (l1 ++ (cut sep l2).1, (cut sep l2).2) := by
  induction l1 with
  | nil => simp
  | cons x l ih =>
    have hx : x ≠ sep := fun e => h (by simp [e])
    have hl : sep ∉ l := fun e => h (by simp [e])
    simp [cut, hx, ih hl]

/-- A numeric field holds no separator. -/
theorem parseNumber_separator (l : List Char) (n : Nat) (h : parseNumber l = some n) :
    '.' ∉ l ∧ '+' ∉ l ∧ '-' ∉ l := by
  have hd : parseDigits l 0 = some n := by
    cases l with
    | nil => simp [parseNumber] at h
    | cons x xs => exact h
  have hdig := parseDigits_digit l 0 n hd
  obtain ⟨h1, h2, h3⟩ := digitValue_separator
  exact ⟨fun hc => hdig _ hc h1, fun hc => hdig _ hc h2, fun hc => hdig _ hc h3⟩

/-- The part of a version string before its first `+` parses to the same version
without build metadata. -/
theorem NewVersion_core (text : String) (v : Version) (h : NewVersion text = .ok v) :
    NewVersion (String.mk (cut '+' text.data).1) = .ok { v with Metadata := "" } := by
  have e1 := cut_eq '.' text.data
  unfold NewVersion at h
  cases h1 : cut '.' text.data with
  | mk major o1 =>
    rw [h1] at h e1
    cases o1 with
    | none => simp at h
    | some rest =>
      simp only at h e1
      have e2 := cut_eq '.' rest
      cases h2 : cut '.' rest with
      | mk minor o2 =>
        rw [h2] at h e2
        cases o2 with
        | none => simp at h
        | some third =>
          simp only at h e2
          cases pM : parseNumber major with
          | none => simp [pM] at h
          | some a =>
            cases pm : parseNumber minor with
            | none => simp [pM, pm] at h
            | some b =>
              cases pp : parseNumber (cut '-' (cut '+' third).1).1 with
              | none => simp [pM, pm, pp] at h
              | some c =>
                simp only [pM, pm, pp, Except.ok.injEq] at h
                subst h
                obtain ⟨hM1, hM2, _⟩ := parseNumber_separator major a pM
                obtain ⟨hm1, hm2, _⟩ := parseNumber_separator minor b pm
                have hsplit : text.data = (major ++ '.' :: (minor ++ ['.'])) ++ third := by
                  rw [e1, e2]
                  simp [behind]
                have hfree : '+' ∉ major ++ '.' :: (minor ++ ['.']) := by
                  simp only [List.mem_append, List.mem_cons, List.mem_singleton,
                    List.not_mem_nil, or_false, not_or]
                  exact ⟨hM2, by decide, hm2, by decide⟩
                have hcore : (cut '+' text.data).1
                    = major ++ '.' :: (minor ++ '.' :: (cut '+' third).1) := by
                  rw [hsplit, cut_append_left '+' _ _ hfree]
                  simp
                unfold NewVersion
                simp only [hcore, cut_append '.' _ _ hM1, cut_append '.' _ _ hm1,
                  cut_not_mem '+' _ (cut_fst_not_mem '+' third), pM, pm, pp]
                rfl

end semver

namespace rkt

/-- C11: two strings that parse and are the same up to their first `+`, that
is, differ in build metadata only, whether present or not, compare 0 both ways. -/
theorem compareVersion_build_metadata (a b : String) (va vb : semver.Version)
    (ha : semver.NewVersion a = .ok va) (hb : semver.NewVersion b = .ok vb)
    (h : (semver.cut '+' a.data).1 = (semver.cut '+' b.data).1) :
    compareVersion goLib a b = .ok 0 ∧ compareVersion goLib b a = .ok 0 := by
  have ca := semver.NewVersion_core a va ha
  have cb := semver.NewVersion_core b vb hb
  rw [h, cb] at ca
  injection ca with ca
  have e : vb.Major = va.Major ∧ vb.Minor = va.Minor ∧ vb.Patch = va.Patch
      ∧ vb.PreRelease = va.PreRelease := by
    cases va
    cases vb
    simp only [semver.Version.mk.injEq] at ca
    exact ⟨ca.1, ca.2.1, ca.2.2.1, ca.2.2.2.1⟩
  constructor
  · rw [compareVersion_goLib a b va vb ha hb]
    exact congrArg Except.ok (semver.sign_same va vb
      ⟨e.1.symm, e.2.1.symm, e.2.2.1.symm, e.2.2.2.symm⟩)
  · rw [compareVersion_goLib b a vb va hb ha]
    exact congrArg Except.ok (semver.sign_same vb va e)

/-- C11, at the first two cases of `TestCheckVersion`: "1.2.3+git" and "1.2.3"
compare 0 both ways, so each satisfies the other as a minimum. -/
theorem compareVersion_build_metadata_witness :
    (compareVersion goLib "1.2.3+git" "1.2.3" = .ok 0
      ∧ compareVersion goLib "1.2.3" "1.2.3+git" = .ok 0)
    ∧ (checkVersion goLib testRuntime "1.2.3" "1.2.3" "1.2.4" "1.2.5" "99").err = none
    ∧ (checkVersion goLib
        { testRuntime with apisvc := .ok ⟨"1.2.3", "1.2.4", "1.2.6-alpha"⟩ }
        "1.2.3+git" "1.2.3+git" "1.2.4+git" "1.2.6-alpha" "100").err = none :=
  ⟨compareVersion_build_metadata "1.2.3+git" "1.2.3" ⟨1, 2, 3, "", "git"⟩
      ⟨1, 2, 3, "", ""⟩ (by decide) (by decide) (by decide),
    by decide, by decide⟩

/-- C12: for numbers `M`, `m`, `p` and a text `pre` whose part before any `+` is
not empty, which holds for every pre-release identifier that is not empty, the
string `M.m.p-pre` compares -1 with `M.m.p`, and `M.m.p` compares 1 with it. -/
theorem compareVersion_prerelease (M m p : Nat) (pre : String)
    (hpre : (semver.cut '+' pre.data).1 ≠ []) :
    compareVersion goLib
        (Nat.repr M ++ "." ++ Nat.repr m ++ "." ++ Nat.repr p ++ "-" ++ pre)
        (Nat.repr M ++ "." ++ Nat.repr m ++ "." ++ Nat.repr p) = .ok (-1)
    ∧ compareVersion goLib
        (Nat.repr M ++ "." ++ Nat.repr m ++ "." ++ Nat.repr p)
        (Nat.repr M ++ "." ++ Nat.repr m ++ "." ++ Nat.repr p ++ "-" ++ pre) = .ok 1 := by
  obtain ⟨hM1, _, _⟩ := semver.toDigits_separator M
  obtain ⟨hm1, _, _⟩ := semver.toDigits_separator m
  obtain ⟨_, hp2, hp3⟩ := semver.toDigits_separator p
  have hrel : semver.NewVersion (Nat.repr M ++ "." ++ Nat.repr m ++ "." ++ Nat.repr p)
      = .ok ⟨M, m, p, "", ""⟩ := by
    have h := semver.NewVersion_String ⟨M, m, p, "", ""⟩ (by simp)
    simpa [semver.Version.String] using h
  have hfree : '+' ∉ Nat.toDigits 10 p ++ ['-'] := by
    simp only [List.mem_append, List.mem_singleton, not_or]
    exact ⟨hp2, by decide⟩
  have hdata : (Nat.repr M ++ "." ++ Nat.repr m ++ "." ++ Nat.repr p ++ "-" ++ pre).data
      = Nat.toDigits 10 M ++ '.' :: (Nat.toDigits 10 m ++ '.' ::
          ((Nat.toDigits 10 p ++ ['-']) ++ pre.data)) := by
    simp [Nat.repr, List.asString, String.data_append]
  have hthird : semver.cut '+' ((Nat.toDigits 10 p ++ ['-']) ++ pre.data)
      = (Nat.toDigits 10 p ++ '-' :: (semver.cut '+' pre.data).1,
          (semver.cut '+' pre.data).2) := by
    rw [semver.cut_append_left '+' _ _ hfree]
    simp
  have hpr : semver.NewVersion
      (Nat.repr M ++ "." ++ Nat.repr m ++ "." ++ Nat.repr p ++ "-" ++ pre)
      = .ok ⟨M, m, p, String.mk (semver.cut '+' pre.data).1,
          String.mk ((semver.cut '+' pre.data).2.getD [])⟩ := by
    unfold semver.NewVersion
    rw [hdata, semver.cut_append '.' _ _ hM1]
    simp only [semver.cut_append '.' _ _ hm1, hthird, semver.cut_append '-' _ _ hp3,
      semver.parseNumber_toDigits, Option.getD_some]
  have hne : String.mk (semver.cut '+' pre.data).1 ≠ "" :=
    fun e => hpre (congrArg String.data e)
  have hcmp : semver.Version.Compare
      ⟨M, m, p, String.mk (semver.cut '+' pre.data).1,
        String.mk ((semver.cut '+' pre.data).2.getD [])⟩ ⟨M, m, p, "", ""⟩ = -1 := by
    simp [semver.Version.Compare, semver.Version.Slice, semver.recursiveCompare_self,
      semver.preReleaseCompare, hne]
  have hsign : semver.sign
      ⟨M, m, p, String.mk (semver.cut '+' pre.data).1,
        String.mk ((semver.cut '+' pre.data).2.getD [])⟩ ⟨M, m, p, "", ""⟩ = -1 := by
    unfold semver.sign
    rw [if_pos hcmp]
  constructor
  · rw [compareVersion_goLib _ _ _ _ hpr hrel, hsign]
  · rw [compareVersion_goLib _ _ _ _ hrel hpr, semver.sign_antisymm, hsign]
    rfl

/-- C12, at the API version of `TestCheckVersion`: "1.2.6-alpha" is below
"1.2.6", so it fails that minimum. -/
theorem compareVersion_prerelease_witness :
    (compareVersion goLib
        (Nat.repr 1 ++ "." ++ Nat.repr 2 ++ "." ++ Nat.repr 6 ++ "-" ++ "alpha")
        (Nat.repr 1 ++ "." ++ Nat.repr 2 ++ "." ++ Nat.repr 6) = .ok (-1)
      ∧ compareVersion goLib
        (Nat.repr 1 ++ "." ++ Nat.repr 2 ++ "." ++ Nat.repr 6)
        (Nat.repr 1 ++ "." ++ Nat.repr 2 ++ "." ++ Nat.repr 6 ++ "-" ++ "alpha") = .ok 1)
    ∧ Nat.repr 1 ++ "." ++ Nat.repr 2 ++ "." ++ Nat.repr 6 ++ "-" ++ "alpha" = "1.2.6-alpha"
    ∧ (checkVersion goLib testRuntime "1.2.3" "1.2.3" "1.2.4" "1.2.6" "100").err
      = some (apiTooOld "1.2.6-alpha" "1.2.6") :=
  ⟨compareVersion_prerelease 1 2 6 "alpha" (by decide), by decide, by decide⟩

end rkt
